import Mathlib

/-!
# TwitchHEAT: the `UHeatAPI` connection controller and message decoder

A shallow embedding of `Source/TwitchHEAT/Private/HeatAPI.cpp` and
`Source/TwitchHEAT/Public/HeatAPI.h`.

* The object `UHeatAPI` becomes the record `UHeatAPI`; the member functions become
  functions on `Sys`, which pairs the object with the two things it acts on:
  the one-shot timer held by the world's timer manager and the ordered log of
  every call made to a collaborator (transport, timer manager) and of every
  delegate broadcast.
* The `float` values `ReconnectDelay` and `MaximumReconnectDelay` are rationals. The only
  arithmetic on them is doubling, `Min` and `Max` on values between 1 and 1200, which is
  exact in binary floating point.
* The `float` coordinates of a click are values of `CFloat`: a rational or an infinity.
  A JSON number is a finite `double`, a rational; `toFloat` is the conversion the
  assignment `float X = ...` performs, rounding to the nearest `float`, ties to even.
* `Socket->Connect()` on a null `Socket` is a fault: `Connect` returns `Except Fault`.
* What the environment decides is an input: whether `GetWorld()` is null (`Env.World`),
  what `Socket->IsConnected()` answers (carried by the events that may read it), whether
  the module loads and whether `CreateWebSocket` yields a socket (carried by
  `Event.Initialize`), and the JSON library (`JsonLib`).
-/

namespace TwitchHEAT

/-! ## Data model (HeatAPI.h) -/

/-- The enum `EHeatConnectionState`, in declaration order. -/
inductive EHeatConnectionState
  | NotConnected
  | Connected
  | Connecting
  | Reconnecting
deriving DecidableEq, Repr

/-- A value of the C++ type `float`: a finite value, given as the rational it is, or an
infinity. The two zeros are one value here, and no NaN arises from a number. -/
inductive CFloat
  | finite (v : ℚ)
  | inf (negative : Bool)
deriving DecidableEq, Repr

/-- The struct `FClickData`: a user id and an `FVector2f`, two `float` components. -/
structure FClickData where
  UserID : String
  Coordinates : CFloat × CFloat
deriving DecidableEq, Repr

/-- The four notifications of `IWebSocket` a handler can be bound to. -/
inductive Handler
  | OnConnected
  | OnClosed
  | OnMessage
  | OnConnectionError
deriving DecidableEq, Repr

/-- Everything the controller does to the outside: delegate broadcasts
(`OnClickReceived` ... `OnConnectionError`), calls on the WebSocket module and the socket,
and calls on the timer manager. -/
inductive Effect
  | OnClickReceived (Click : FClickData)
  | OnConnected
  | OnDisconnected (Forced : Bool)
  | OnConnectionState (NewState : EHeatConnectionState)
  | OnConnectionError (Error : String)
  | CreateWebSocket (URL Protocol : String)
  | AddHandler (h : Handler)
  | SocketConnect
  | SocketClose (Code : Int) (Reason : String)
  | SetTimer (Rate : ℚ)
  | ClearTimer
deriving DecidableEq, Repr

/-- The socket object returned by `CreateWebSocket(URL, Protocol)`. -/
structure IWebSocket where
  URL : String
  Protocol : String
deriving DecidableEq, Repr

/-- The fields of `UHeatAPI`. `ReconnectTimer` is `ReconnectTimer.IsValid()`,
`Socket` is the shared pointer (`none` for `nullptr`), `WebSocketModule` is
`WebSocketModule != nullptr`. -/
structure UHeatAPI where
  bAutoReconnect : Bool
  MaximumReconnectDelay : ℚ
  State : EHeatConnectionState
  ReconnectTimer : Bool
  Socket : Option IWebSocket
  WebSocketModule : Bool
  ReconnectDelay : ℚ
  bDisconnecting : Bool
  bReconnecting : Bool
deriving DecidableEq, Repr

/-- The object together with its surroundings: `timer` is the pending one-shot timer
of the timer manager (its delay), `log` the effects so far, oldest first. -/
structure Sys where
  api : UHeatAPI
  timer : Option ℚ
  log : List Effect
deriving DecidableEq, Repr

/-- The only fault of the controller: `Socket->Connect()` through a null `Socket`. -/
inductive Fault
  | nullSocket
deriving DecidableEq, Repr

/-! ## JSON values (the `Json` module, used by `HandleMessage`) -/

/-- A JSON value as `HandleMessage` sees it; the contents of arrays and nested objects
are never read. -/
inductive FJsonValue
  | Null
  | String (Value : String)
  | Number (Value : ℚ)
  | Boolean (Value : Bool)
  | Array
  | Object
deriving DecidableEq, Repr

/-- An `FJsonObject`, by its field lookup. -/
abbrev FJsonObject := String → Option FJsonValue

/-- The parts of the JSON library that the source calls and does not define:
`FJsonSerializer::Deserialize` (`none` when it fails), the number printer behind
`FJsonValueNumber::TryGetString`, and the numeric-string reader behind
`FJsonValueString::TryGetNumber` (`none` when the string is not numeric). -/
structure JsonLib where
  Deserialize : String → Option FJsonObject
  SanitizeFloat : ℚ → String
  Atod : String → Option ℚ

/-- What the environment fixes for a run: `World` is `GetWorld() != nullptr`. -/
structure Env where
  World : Bool
  Json : JsonLib

/-! ## Member functions (HeatAPI.cpp) -/

/-- Append one effect to the log. -/
def emit (e : Effect) (s : Sys) : Sys :=
  { s with log := s.log ++ [e] }

/-- `UHeatAPI::GetURLAndProtocol`: the pair `(Out_URL, Out_Protocol)`. -/
def GetURLAndProtocol (ChannelID : String) : String × String :=
  ("wss://heat-api.j38.net/channel/" ++ ChannelID, "wss")

/-- `UHeatAPI::GetConnectionState`. -/
def GetConnectionState (s : Sys) : EHeatConnectionState :=
  s.api.State

/-- `UHeatAPI::ChangeState`: write `State`, then broadcast it. -/
def ChangeState (NewState : EHeatConnectionState) (s : Sys) : Sys :=
  let s1 : Sys := { s with api := { s.api with State := NewState } }
  emit (.OnConnectionState s1.api.State) s1

/-- `UHeatAPI::Initialize`. `ModuleLoads` says whether `LoadModuleChecked` yields a module,
`SocketCreated` whether `CreateWebSocket` yields a socket. -/
def Initialize (ChannelID : String) (ModuleLoads SocketCreated : Bool) (s : Sys) :
    Bool × Sys :=
  let s1 : Sys :=
    if s.api.WebSocketModule then s
    else { s with api := { s.api with WebSocketModule := ModuleLoads } }
  if !s1.api.WebSocketModule then (false, s1)
  else if s1.api.Socket.isSome then (false, s1)
  else
    let up := GetURLAndProtocol ChannelID
    let s2 : Sys := emit (.CreateWebSocket up.1 up.2)
      { s1 with api := { s1.api with
          Socket := if SocketCreated then some ⟨up.1, up.2⟩ else none } }
    if s2.api.Socket.isNone then (false, s2)
    else
      (true, emit (.AddHandler .OnConnectionError) (emit (.AddHandler .OnMessage)
        (emit (.AddHandler .OnClosed) (emit (.AddHandler .OnConnected) s2))))

/-- `UHeatAPI::IsConnected`; `socketConnected` is the answer of `Socket->IsConnected()`. -/
def IsConnected (socketConnected : Bool) (s : Sys) : Bool :=
  s.api.Socket.isSome && socketConnected

/-- `UHeatAPI::Connect`. -/
def Connect (socketConnected : Bool) (s : Sys) : Except Fault Sys :=
  if !IsConnected socketConnected s then
    let s1 := ChangeState .Connecting s
    match s1.api.Socket with
    | none => .error .nullSocket
    | some _ => .ok (emit .SocketConnect s1)
  else .ok s

/-- `FTimerManager::ClearTimer(ReconnectTimer)`: the timer is removed and the handle
invalidated. -/
def ClearTimer (s : Sys) : Sys :=
  emit .ClearTimer { s with timer := none, api := { s.api with ReconnectTimer := false } }

/-- `FTimerManager::SetTimer(ReconnectTimer, this, &UHeatAPI::Connect, Rate)`: a one-shot
timer for `Rate` seconds; a timer already held by the handle is replaced. -/
def SetTimer (Rate : ℚ) (s : Sys) : Sys :=
  emit (.SetTimer Rate) { s with timer := some Rate, api := { s.api with ReconnectTimer := true } }

/-- `UHeatAPI::Disconnect`. -/
def Disconnect (env : Env) (s : Sys) : Sys :=
  if s.api.bDisconnecting then s
  else
    let s1 : Sys :=
      if s.api.ReconnectTimer then
        if env.World then ClearTimer s else s
      else s
    let s2 : Sys := { s1 with api := { s1.api with bDisconnecting := true } }
    if s2.api.Socket.isSome then emit (.SocketClose 1000 "User requested disconnect") s2
    else s2

/-- `FJsonValue::AsString`: the string of a string value, the printed form of a number or
boolean, and the empty string for anything else. -/
def AsString (lib : JsonLib) : FJsonValue → String
  | .String v => v
  | .Number n => lib.SanitizeFloat n
  | .Boolean b => if b then "true" else "false"
  | _ => ""

/-- `FJsonValue::AsNumber`: the number of a number value, of a numeric string or of a
boolean, and zero for anything else. -/
def AsNumber (lib : JsonLib) : FJsonValue → ℚ
  | .Number n => n
  | .String v => (lib.Atod v).getD 0
  | .Boolean b => if b then 1 else 0
  | _ => 0

/-- `FJsonObject::GetStringField`: a missing field reads as a null value. -/
def GetStringField (lib : JsonLib) (Root : FJsonObject) (FieldName : String) : String :=
  AsString lib ((Root FieldName).getD .Null)

/-- `FJsonObject::GetNumberField`: a missing field reads as a null value. -/
def GetNumberField (lib : JsonLib) (Root : FJsonObject) (FieldName : String) : ℚ :=
  AsNumber lib ((Root FieldName).getD .Null)

/-- `FString::Compare(Other, ESearchCase::IgnoreCase) == 0`: equal after lowering the
letters `A`-`Z`. -/
def CompareIgnoreCase (a b : String) : Bool :=
  a.data.map Char.toLower == b.data.map Char.toLower

/-- Rounding to the nearest integer, a tie going to the even one. -/
def roundHalfEven (t : ℚ) : ℤ :=
  if t - ⌊t⌋ < 1 / 2 then ⌊t⌋
  else if 1 / 2 < t - ⌊t⌋ then ⌊t⌋ + 1
  else if ⌊t⌋ % 2 = 0 then ⌊t⌋ else ⌊t⌋ + 1

/-- The conversion of a `double` to `float` (IEEE 754 binary32, round to nearest, ties to
even): with `e` the binary exponent of the number, not below -126, the number is rounded to
a multiple of `2 ^ (e - 23)`; a result of `2 ^ 128` or more is an infinity. -/
def toFloat (x : ℚ) : CFloat :=
  if x = 0 then .finite 0
  else
    let e : ℤ := max (Int.log 2 |x|) (-126)
    let q : ℚ := 2 ^ (e - 23)
    let v : ℚ := roundHalfEven (|x| / q) * q
    if 2 ^ 128 ≤ v then .inf (decide (x < 0))
    else .finite (if x < 0 then -v else v)

/-- `UHeatAPI::HandleMessage`. `Root` starts as an empty object and is replaced only when
`Deserialize` succeeds. -/
def HandleMessage (lib : JsonLib) (Message : String) (s : Sys) : Sys :=
  let Root : FJsonObject := (lib.Deserialize Message).getD (fun _ => none)
  let Type_ := GetStringField lib Root "type"
  if !CompareIgnoreCase Type_ "click" then s
  else
    let Id := GetStringField lib Root "id"
    let X := toFloat (GetNumberField lib Root "x")
    let Y := toFloat (GetNumberField lib Root "y")
    emit (.OnClickReceived ⟨Id, (X, Y)⟩) s

/-- `UHeatAPI::HandleConnection`. -/
def HandleConnection (s : Sys) : Sys :=
  let s1 : Sys := { s with api := { s.api with ReconnectDelay := 1, bReconnecting := false } }
  emit .OnConnected (ChangeState .Connected s1)

/-- `UHeatAPI::HandleReconnction`. -/
def HandleReconnction (env : Env) (socketConnected : Bool) (s : Sys) : Except Fault Sys :=
  if s.api.bAutoReconnect && !s.api.bReconnecting then
    let s1 : Sys := { s with api := { s.api with bReconnecting := true } }
    if env.World then
      let s2 := ChangeState .Reconnecting s1
      let s3 := SetTimer s2.api.ReconnectDelay s2
      .ok { s3 with api := { s3.api with
        ReconnectDelay := max (min (s3.api.ReconnectDelay * 2) s3.api.MaximumReconnectDelay) 1 } }
    else Connect socketConnected s1
  else .ok s

/-- `UHeatAPI::HandleConnectionClosed`. The three arguments are only logged. -/
def HandleConnectionClosed (env : Env) (socketConnected : Bool) (s : Sys) : Except Fault Sys :=
  let s1 := ChangeState .NotConnected s
  let s2 := emit (.OnDisconnected s1.api.bDisconnecting) s1
  if s2.api.bDisconnecting then
    .ok { s2 with api := { s2.api with bDisconnecting := false } }
  else HandleReconnction env socketConnected s2

/-- The lambda bound to `Socket->OnConnectionError()` in `Initialize`. -/
def HandleConnectionError (env : Env) (Reason : String) (socketConnected : Bool) (s : Sys) :
    Except Fault Sys :=
  let s1 := emit (.OnConnectionError Reason) s
  let s2 : Sys := { s1 with api := { s1.api with bReconnecting := false } }
  HandleReconnction env socketConnected s2

/-! ## Runs -/

/-- What can happen to the controller: the public calls, the four socket notifications and
the expiry of the reconnect timer. An event that may run `Connect` carries the answer
`Socket->IsConnected()` gives at that moment. -/
inductive Event
  | Initialize (ChannelID : String) (ModuleLoads SocketCreated : Bool)
  | Connect (socketConnected : Bool)
  | Disconnect
  | IsConnected (socketConnected : Bool)
  | GetConnectionState
  | OnConnected
  | OnClosed (StatusCode : Int) (Reason : String) (WasClean : Bool) (socketConnected : Bool)
  | OnMessage (Message : String)
  | OnConnectionError (Reason : String) (socketConnected : Bool)
  | TimerFired (socketConnected : Bool)
deriving DecidableEq, Repr

/-- One event. The socket notifications reach the handlers only through a socket, so
they do nothing while `Socket` is null; the timer fires only while it is pending, and
firing consumes it and calls `Connect`. -/
def step (env : Env) (s : Sys) : Event → Except Fault Sys
  | .Initialize c m k => .ok (Initialize c m k s).2
  | .Connect tc => Connect tc s
  | .Disconnect => .ok (Disconnect env s)
  | .IsConnected _ => .ok s
  | .GetConnectionState => .ok s
  | .OnConnected => if s.api.Socket.isSome then .ok (HandleConnection s) else .ok s
  | .OnClosed _ _ _ tc =>
      if s.api.Socket.isSome then HandleConnectionClosed env tc s else .ok s
  | .OnMessage m => if s.api.Socket.isSome then .ok (HandleMessage env.Json m s) else .ok s
  | .OnConnectionError r tc =>
      if s.api.Socket.isSome then HandleConnectionError env r tc s else .ok s
  | .TimerFired tc =>
      match s.timer with
      | none => .ok s
      | some _ => Connect tc { s with timer := none }

/-- A sequence of events, stopping at the first fault. -/
def run (env : Env) (s : Sys) : List Event → Except Fault Sys
  | [] => .ok s
  | e :: es =>
      match step env s e with
      | .error f => .error f
      | .ok s1 => run env s1 es

/-- A freshly constructed `UHeatAPI` with the two exposed properties set, no timer and an
empty log. -/
def fresh (bAutoReconnect : Bool) (MaximumReconnectDelay : ℚ) : Sys :=
  { api :=
      { bAutoReconnect := bAutoReconnect
        MaximumReconnectDelay := MaximumReconnectDelay
        State := .NotConnected
        ReconnectTimer := false
        Socket := none
        WebSocketModule := false
        ReconnectDelay := 1
        bDisconnecting := false
        bReconnecting := false }
    timer := none
    log := [] }

/-- The delays of the timers scheduled in a log, oldest first. -/
def scheduled : List Effect → List ℚ
  | [] => []
  | .SetTimer r :: l => r :: scheduled l
  | _ :: l => scheduled l

/-- How many times `Socket->Connect()` was called in a log. -/
def connects (l : List Effect) : Nat :=
  l.count .SocketConnect

/-- The run of the transport failing again and again: each error is followed by the expiry
of the reconnect timer with the socket not connected, so that `Connect` is issued again.
An entry is the reason of the error and the answer of `Socket->IsConnected()` at the error. -/
def errorCycles : List (String × Bool) → List Event
  | [] => []
  | (r, tc) :: l => .OnConnectionError r tc :: .TimerFired false :: errorCycles l

/-- A JSON library that decodes nothing, for runs in which no message arrives. -/
def demoLib : JsonLib := ⟨fun _ => none, fun _ => "", fun _ => none⟩

/-- What holds of every reachable state about `Connected`: the configuration is the one the
object was built with, a socket exists, and with a world (`W`) no reconnect cycle is active. -/
def ConnectedInv (auto W : Bool) (s : Sys) : Prop :=
  s.api.bAutoReconnect = auto ∧
  (s.api.State = .Connected → s.api.Socket.isSome = true) ∧
  (W = true → s.api.State = .Connected → s.api.bReconnecting = false)

/-- The record of the message `{"type":"click","id":"u1","x":0.25,"y":0.75}`. -/
def clickRecord : FJsonObject := fun k =>
  [("type", FJsonValue.String "click"), ("id", .String "u1"), ("x", .Number (1/4)),
    ("y", .Number (3/4))].lookup k

/-- A JSON library that reads that one message. -/
def clickLib : JsonLib :=
  { Deserialize := fun m =>
      if m = "\x7b\"type\":\"click\",\"id\":\"u1\",\"x\":0.25,\"y\":0.75\x7d" then
        some clickRecord
      else none
    SanitizeFloat := fun _ => ""
    Atod := fun _ => none }

/-- The record of the message `{"type":"click","id":"u1","x":0.1,"y":0.75}`: the `double`
nearest to 0.1 is `3602879701896397 / 2 ^ 55`. -/
def tenthRecord : FJsonObject := fun k =>
  [("type", FJsonValue.String "click"), ("id", .String "u1"),
    ("x", .Number (3602879701896397 / 36028797018963968)), ("y", .Number (3/4))].lookup k

/-- A JSON library that reads that one message. -/
def tenthLib : JsonLib :=
  { Deserialize := fun m =>
      if m = "\x7b\"type\":\"click\",\"id\":\"u1\",\"x\":0.1,\"y\":0.75\x7d" then
        some tenthRecord
      else none
    SanitizeFloat := fun _ => ""
    Atod := fun _ => none }

/-- The numbers that are `float` values: `m * 2 ^ k` with `|m| < 2 ^ 24` and `k` from -149
to 104. -/
def IsFloat (x : ℚ) : Prop :=
  ∃ m k : ℤ, |m| < 2 ^ 24 ∧ -149 ≤ k ∧ k ≤ 104 ∧ x = m * 2 ^ k

/-- The record of the message `{"type":"click","id":"u1"}`: a click without coordinates. -/
def partialClickRecord : FJsonObject := fun k =>
  [("type", FJsonValue.String "click"), ("id", .String "u1")].lookup k

/-- The record of the message `{"type":"ping"}`. -/
def pingRecord : FJsonObject := fun k =>
  [("type", FJsonValue.String "ping")].lookup k

/-- A JSON library that reads those two messages and fails on every other text. -/
def feedLib : JsonLib :=
  { Deserialize := fun m =>
      if m = "\x7b\"type\":\"click\",\"id\":\"u1\"\x7d" then some partialClickRecord
      else if m = "\x7b\"type\":\"ping\"\x7d" then some pingRecord
      else none
    SanitizeFloat := fun _ => "0"
    Atod := fun _ => none }

/-- The four socket notifications, as opposed to the public calls and the timer expiry. -/
def isNotification : Event → Bool
  | .OnConnected => true
  | .OnClosed _ _ _ _ => true
  | .OnMessage _ => true
  | .OnConnectionError _ _ => true
  | _ => false

/-- The scheduled delays of a log are those of its parts, in order. -/
theorem scheduled_append (l l2 : List Effect) :
    scheduled (l ++ l2) = scheduled l ++ scheduled l2 := by
  induction l with
  | nil => rfl
  | cons e l ih => cases e <;> simp [scheduled, ih]

/-- Doubling the capped power of two and clamping it into `[1, M]` gives the next capped
power of two. -/
theorem backoff_next (M : ℚ) (h1 : 1 ≤ M) (i : ℕ) :
    max (min (min ((2:ℚ) ^ i) M * 2) M) 1 = min ((2:ℚ) ^ (i + 1)) M := by
  have hp : (1:ℚ) ≤ 2 ^ i := one_le_pow₀ (by norm_num)
  have hp2 : (2:ℚ) ^ (i + 1) = 2 ^ i * 2 := pow_succ 2 i
  rcases le_total ((2:ℚ) ^ i) M with h | h
  · rw [min_eq_left h, hp2]
    apply max_eq_left
    apply le_min
    · linarith
    · exact h1
  · rw [min_eq_right h, hp2]
    rw [min_eq_right (by linarith : M ≤ M * 2), min_eq_right (by linarith : M ≤ 2 ^ i * 2)]
    exact max_eq_left h1

/-- C1. Happy path as a trace. From a fresh controller with `bAutoReconnect` set and a world
present, for every `MaximumReconnectDelay`: `Initialize("abc123")` succeeds; `Connect()` and
the connected notification leave `State = Connected`, `OnConnected` broadcast once and
`ReconnectDelay = 1`; a closed notification not asked for by `Disconnect()` leaves
`State = Reconnecting` with one timer scheduled, for 1 second; when it fires with the socket
not connected, exactly one more `Socket->Connect()` is issued and `State = Connecting`. -/
theorem C1_happy_path_trace (M : ℚ) (lib : JsonLib) (code : Int) (reason : String)
    (clean tc : Bool) :
    ∃ s1 s2 s3 s4 s5 : Sys,
      (Initialize "abc123" true true (fresh true M)).1 = true ∧
      step ⟨true, lib⟩ (fresh true M) (.Initialize "abc123" true true) = .ok s1 ∧
      step ⟨true, lib⟩ s1 (.Connect false) = .ok s2 ∧
      s2.api.State = .Connecting ∧ connects s2.log = 1 ∧
      step ⟨true, lib⟩ s2 .OnConnected = .ok s3 ∧
      s3.api.State = .Connected ∧ s3.log.count .OnConnected = 1 ∧ s3.api.ReconnectDelay = 1 ∧
      step ⟨true, lib⟩ s3 (.OnClosed code reason clean tc) = .ok s4 ∧
      s4.api.State = .Reconnecting ∧ s4.timer = some 1 ∧ scheduled s4.log = [1] ∧
      step ⟨true, lib⟩ s4 (.TimerFired false) = .ok s5 ∧
      s5.api.State = .Connecting ∧
      s5.log = s4.log ++ [.OnConnectionState .Connecting, .SocketConnect] ∧
      connects s5.log = connects s4.log + 1 := by
  refine ⟨_, _, _, _, _, ?_, rfl, rfl, ?_, ?_, rfl, ?_, ?_, ?_, rfl, ?_, ?_, ?_, rfl,
    ?_, ?_, ?_⟩ <;>
    simp [Initialize, Connect, HandleConnection, HandleConnectionClosed, HandleReconnction,
      ChangeState, SetTimer, emit, fresh, IsConnected, GetURLAndProtocol, scheduled, connects]

/-- One error followed by the expiry of the timer, with a socket, `bAutoReconnect` and a
world: the current delay is scheduled and then doubled and clamped. -/
theorem error_cycle (env : Env) (s : Sys) (r : String) (tc : Bool)
    (hW : env.World = true) (hA : s.api.bAutoReconnect = true)
    (hS : s.api.Socket.isSome = true) :
    ∃ sa s1 : Sys,
      step env s (.OnConnectionError r tc) = .ok sa ∧
      sa.timer = some s.api.ReconnectDelay ∧
      sa.log = s.log ++ [.OnConnectionError r, .OnConnectionState .Reconnecting,
        .SetTimer s.api.ReconnectDelay] ∧
      step env sa (.TimerFired false) = .ok s1 ∧
      s1.log = sa.log ++ [.OnConnectionState .Connecting, .SocketConnect] ∧
      s1.api.ReconnectDelay = sa.api.ReconnectDelay ∧
      sa.api.ReconnectDelay
        = max (min (s.api.ReconnectDelay * 2) s.api.MaximumReconnectDelay) 1 ∧
      s1.api.Socket.isSome = true ∧ s1.api.bAutoReconnect = true ∧
      s1.api.MaximumReconnectDelay = s.api.MaximumReconnectDelay := by
  obtain ⟨⟨auto, M, st, rt, sock, wm, d, bd, br⟩, timer, log⟩ := s
  obtain ⟨W, lib⟩ := env
  cases sock with
  | none => simp at hS
  | some w =>
    simp only at hA hW
    subst hA hW
    refine ⟨_, _, rfl, ?_, ?_, rfl, ?_, ?_, ?_, ?_, ?_, ?_⟩ <;>
      simp [HandleConnectionError, HandleReconnction, Connect, ChangeState, SetTimer,
        emit, IsConnected]

/-- The backoff over any number of error cycles, started at the `i`-th capped power of two. -/
theorem error_cycles_from (env : Env) (M : ℚ) (hW : env.World = true) (h1 : 1 ≤ M)
    (rs : List (String × Bool)) :
    ∀ (i : ℕ) (s : Sys), s.api.bAutoReconnect = true → s.api.Socket.isSome = true →
      s.api.MaximumReconnectDelay = M → s.api.ReconnectDelay = min ((2:ℚ) ^ i) M →
      ∃ s1 : Sys, run env s (errorCycles rs) = .ok s1 ∧
        scheduled s1.log
          = scheduled s.log ++ (List.range rs.length).map (fun j => min ((2:ℚ) ^ (i + j)) M) ∧
        s1.api.ReconnectDelay = min ((2:ℚ) ^ (i + rs.length)) M ∧
        s1.api.bAutoReconnect = true ∧ s1.api.Socket.isSome = true ∧
        s1.api.MaximumReconnectDelay = M := by
  induction rs with
  | nil =>
    intro i s hA hS hM hd
    exact ⟨s, rfl, by simp, by simpa using hd, hA, hS, hM⟩
  | cons p rs ih =>
    intro i s hA hS hM hd
    obtain ⟨r, tc⟩ := p
    obtain ⟨sa, s1, e1, -, l1, e2, l2, d2, d1, hS1, hA1, hM1⟩ := error_cycle env s r tc hW hA hS
    have hd1 : s1.api.ReconnectDelay = min ((2:ℚ) ^ (i + 1)) M := by
      rw [d2, d1, hd, hM, backoff_next M h1 i]
    obtain ⟨s2, e3, l3, d3, hA2, hS2, hM2⟩ := ih (i + 1) s1 hA1 hS1 (hM1.trans hM) hd1
    refine ⟨s2, ?_, ?_, ?_, hA2, hS2, hM2⟩
    · simp [errorCycles, run, e1, e2, e3]
    · rw [l3, l2, l1, hd]
      simp [scheduled_append, scheduled, List.range_succ_eq_map, Function.comp_def,
        Nat.add_assoc, Nat.add_comm 1]
    · rw [d3]
      simp [Nat.add_assoc, Nat.add_comm 1]

/-- C2. Backoff under repeated connection errors. For `MaximumReconnectDelay = M` in
`[1, 600]`, with `bAutoReconnect`, a world and a socket, starting from `ReconnectDelay = 1`:
after any number `i` of error cycles (error, timer expiry, `Connect` issued again) the timers
scheduled so far have the delays `min (2^j) M` for `j < i`, in order, and the next error, the
`(i+1)`-th, schedules a timer for `min (2^i) M`, then replaces the delay by
`max (min (2 * delay) M) 1`. -/
theorem C2_backoff_under_errors (env : Env) (M : ℚ) (s : Sys) (rs : List (String × Bool))
    (r : String) (tc : Bool)
    (hW : env.World = true) (hA : s.api.bAutoReconnect = true)
    (hS : s.api.Socket.isSome = true) (hM : s.api.MaximumReconnectDelay = M)
    (h1 : 1 ≤ M) (_h600 : M ≤ 600) (hd : s.api.ReconnectDelay = 1)
    (_hr : s.api.bReconnecting = false) :
    ∃ s1 s2 : Sys,
      run env s (errorCycles rs) = .ok s1 ∧
      scheduled s1.log
        = scheduled s.log ++ (List.range rs.length).map (fun j => min ((2:ℚ) ^ j) M) ∧
      step env s1 (.OnConnectionError r tc) = .ok s2 ∧
      scheduled s2.log = scheduled s1.log ++ [min ((2:ℚ) ^ rs.length) M] ∧
      s2.timer = some (min ((2:ℚ) ^ rs.length) M) ∧
      s2.api.ReconnectDelay = max (min (2 * min ((2:ℚ) ^ rs.length) M) M) 1 := by
  have hd0 : s.api.ReconnectDelay = min ((2:ℚ) ^ 0) M := by
    rw [hd, pow_zero, min_eq_left h1]
  obtain ⟨s1, e1, l1, d1, hA1, hS1, hM1⟩ := error_cycles_from env M hW h1 rs 0 s hA hS hM hd0
  obtain ⟨s2, -, e2, t2, l2, -, -, -, d2, -, -, -⟩ := error_cycle env s1 r tc hW hA1 hS1
  refine ⟨s1, s2, e1, ?_, e2, ?_, ?_, ?_⟩
  · simpa using l1
  · rw [l2]
    simp [scheduled_append, scheduled, d1]
  · rw [t2]
    simp [d1]
  · rw [d2, hM1, d1, mul_comm]
    simp

/-- A property kept by every step holds after every run. -/
theorem run_invariant (env : Env) (P : Sys → Prop)
    (hstep : ∀ (s s1 : Sys) (e : Event), P s → step env s e = .ok s1 → P s1)
    (evs : List Event) : ∀ (s s1 : Sys), P s → run env s evs = .ok s1 → P s1 := by
  induction evs with
  | nil =>
    intro s s1 hP h
    simp only [run, Except.ok.injEq] at h
    exact h ▸ hP
  | cons e es ih =>
    intro s s1 hP h
    simp only [run] at h
    split at h
    · exact absurd h (by simp)
    · next s2 h2 => exact ih s2 s1 (hstep s s2 e hP h2) h

/-- One step keeps `ConnectedInv`. -/
theorem step_ConnectedInv (env : Env) (auto : Bool) (s s1 : Sys) (e : Event)
    (hI : ConnectedInv auto env.World s) (h : step env s e = .ok s1) :
    ConnectedInv auto env.World s1 := by
  obtain ⟨⟨a, M0, st, rt, sock, wm, d, bd, br⟩, timer, log⟩ := s
  obtain ⟨W, lib⟩ := env
  obtain ⟨hA, hS, hR⟩ := hI
  simp only at hA hS hR
  subst hA
  cases e <;>
    simp only [step, Initialize, Connect, Disconnect, HandleConnection, HandleConnectionClosed,
      HandleConnectionError, HandleReconnction, HandleMessage, ChangeState, SetTimer, ClearTimer,
      emit, IsConnected] at h <;>
    (repeat' split at h) <;>
    simp only [Except.ok.injEq, reduceCtorEq] at h <;>
    (try subst h) <;>
    (try simp_all [ConnectedInv])

/-- Only `Disconnect()` sets `bDisconnecting`. -/
theorem step_not_disconnecting (env : Env) (s s1 : Sys) (e : Event)
    (hne : e ≠ .Disconnect) (hD : s.api.bDisconnecting = false) (h : step env s e = .ok s1) :
    s1.api.bDisconnecting = false := by
  obtain ⟨⟨a, M0, st, rt, sock, wm, d, bd, br⟩, timer, log⟩ := s
  obtain ⟨W, lib⟩ := env
  simp only at hD
  subst hD
  cases e <;>
    simp only [step, Initialize, Connect, Disconnect, HandleConnection, HandleConnectionClosed,
      HandleConnectionError, HandleReconnction, HandleMessage, ChangeState, SetTimer, ClearTimer,
      emit, IsConnected] at h <;>
    (repeat' split at h) <;>
    simp only [Except.ok.injEq, reduceCtorEq] at h <;>
    (try subst h) <;>
    (try simp_all)

/-- A run without `Disconnect()` leaves `bDisconnecting` clear. -/
theorem run_not_disconnecting (env : Env) (evs : List Event) :
    ∀ (s s1 : Sys), Event.Disconnect ∉ evs → s.api.bDisconnecting = false →
      run env s evs = .ok s1 → s1.api.bDisconnecting = false := by
  induction evs with
  | nil =>
    intro s s1 _ hD h
    simp only [run, Except.ok.injEq] at h
    exact h ▸ hD
  | cons e es ih =>
    intro s s1 hmem hD h
    simp only [run] at h
    split at h
    · exact absurd h (by simp)
    · next s2 h2 =>
      simp only [List.mem_cons, not_or] at hmem
      exact ih s2 s1 hmem.2 (step_not_disconnecting env s s2 e (Ne.symm hmem.1) hD h2) h

/-- One step keeps the cap and keeps the delay between 1 and the cap. -/
theorem step_delay_bounds (env : Env) (M : ℚ) (h1 : 1 ≤ M) (s s1 : Sys) (e : Event)
    (h : step env s e = .ok s1) (hM : s.api.MaximumReconnectDelay = M)
    (hlo : 1 ≤ s.api.ReconnectDelay) (hhi : s.api.ReconnectDelay ≤ M) :
    s1.api.MaximumReconnectDelay = M ∧ 1 ≤ s1.api.ReconnectDelay ∧ s1.api.ReconnectDelay ≤ M := by
  obtain ⟨⟨auto, M0, st, rt, sock, wm, d, bd, br⟩, timer, log⟩ := s
  obtain ⟨W, lib⟩ := env
  simp only at hM hlo hhi
  subst hM
  have key : ∀ x : ℚ, 1 ≤ max (min x M0) 1 ∧ max (min x M0) 1 ≤ M0 :=
    fun x => ⟨le_max_right _ _, max_le (min_le_right _ _) h1⟩
  cases e <;>
    simp only [step, Initialize, Connect, Disconnect, HandleConnection, HandleConnectionClosed,
      HandleConnectionError, HandleReconnction, HandleMessage, ChangeState, SetTimer, ClearTimer,
      emit, IsConnected] at h <;>
    (repeat' split at h) <;>
    simp only [Except.ok.injEq, reduceCtorEq] at h <;>
    (try subst h) <;>
    (try simp_all)

/-- C2 at a concrete run: cap 60, two error cycles, then a third error. -/
theorem C2_backoff_under_errors_witness :
    (⟨true, demoLib⟩ : Env).World = true ∧
    (Initialize "abc123" true true (fresh true 60)).2.api.bAutoReconnect = true ∧
    (Initialize "abc123" true true (fresh true 60)).2.api.Socket.isSome = true ∧
    (Initialize "abc123" true true (fresh true 60)).2.api.MaximumReconnectDelay = 60 ∧
    (1:ℚ) ≤ 60 ∧ (60:ℚ) ≤ 600 ∧
    (Initialize "abc123" true true (fresh true 60)).2.api.ReconnectDelay = 1 ∧
    (Initialize "abc123" true true (fresh true 60)).2.api.bReconnecting = false ∧
    ∃ s1 s2 : Sys,
      run ⟨true, demoLib⟩ (Initialize "abc123" true true (fresh true 60)).2
        (errorCycles [("timeout", false), ("refused", false)]) = .ok s1 ∧
      scheduled s1.log
        = scheduled (Initialize "abc123" true true (fresh true 60)).2.log ++
          (List.range [("timeout", false), ("refused", false)].length).map
            (fun j => min ((2:ℚ) ^ j) 60) ∧
      step ⟨true, demoLib⟩ s1 (.OnConnectionError "reset" false) = .ok s2 ∧
      scheduled s2.log = scheduled s1.log ++
        [min ((2:ℚ) ^ [("timeout", false), ("refused", false)].length) 60] ∧
      s2.timer = some (min ((2:ℚ) ^ [("timeout", false), ("refused", false)].length) 60) ∧
      s2.api.ReconnectDelay
        = max (min (2 * min ((2:ℚ) ^ [("timeout", false), ("refused", false)].length) 60) 60) 1 :=
  ⟨rfl, rfl, rfl, rfl, by decide, by decide, rfl, rfl,
    C2_backoff_under_errors ⟨true, demoLib⟩ 60 (Initialize "abc123" true true (fresh true 60)).2
      [("timeout", false), ("refused", false)] "reset" false rfl rfl rfl rfl
      (by decide) (by decide) rfl rfl⟩

/-- C3, the code at the failing input. After `Initialize`, `Connect`, connected, an
unexpected closure, the timer expiry and a second unexpected closure, only one timer has
been scheduled (for 1 second, none for 2): `bReconnecting` is still set from the first
closure, so `HandleReconnction` does nothing, and the controller rests in `NotConnected`
with no timer pending. -/
theorem C3_second_closure_schedules_nothing :
    ∃ s : Sys,
      run ⟨true, demoLib⟩ (fresh true 60)
        [.Initialize "abc123" true true, .Connect false, .OnConnected,
          .OnClosed 1006 "" false false, .TimerFired false,
          .OnClosed 1006 "" false false] = .ok s ∧
      scheduled s.log = [1] ∧ s.timer = none ∧
      s.api.State = .NotConnected ∧ s.api.bReconnecting = true := by
  refine ⟨_, rfl, ?_, ?_, ?_, ?_⟩ <;>
    simp [Initialize, Connect, HandleConnection, HandleConnectionClosed, HandleReconnction,
      ChangeState, SetTimer, emit, fresh, IsConnected, GetURLAndProtocol, scheduled]

/-- C4. Delay bound invariant. With `MaximumReconnectDelay = M` in `[1, 600]` left alone, every
state reached from a fresh controller by public calls, socket notifications and timer
expiries has `1 ≤ ReconnectDelay ≤ MaximumReconnectDelay = M`. -/
theorem C4_delay_bound_invariant (env : Env) (auto : Bool) (M : ℚ)
    (h1 : 1 ≤ M) (_h600 : M ≤ 600) (evs : List Event) (s : Sys)
    (h : run env (fresh auto M) evs = .ok s) :
    1 ≤ s.api.ReconnectDelay ∧ s.api.ReconnectDelay ≤ s.api.MaximumReconnectDelay ∧
      s.api.MaximumReconnectDelay = M := by
  have := run_invariant env
    (fun t => t.api.MaximumReconnectDelay = M ∧ 1 ≤ t.api.ReconnectDelay ∧
      t.api.ReconnectDelay ≤ M)
    (fun t t1 e hP ht => step_delay_bounds env M h1 t t1 e ht hP.1 hP.2.1 hP.2.2)
    evs (fresh auto M) s ⟨rfl, le_refl _, h1⟩ h
  exact ⟨this.2.1, this.1 ▸ this.2.2, this.1⟩

/-- C4 at a concrete run: cap 2, two errors in a row. -/
theorem C4_delay_bound_invariant_witness :
    (1:ℚ) ≤ 2 ∧ (2:ℚ) ≤ 600 ∧
    ∃ s : Sys,
      run ⟨true, demoLib⟩ (fresh true 2)
        [.Initialize "abc123" true true, .Connect false, .OnConnectionError "refused" false,
          .TimerFired false, .OnConnectionError "refused" false] = .ok s ∧
      1 ≤ s.api.ReconnectDelay ∧ s.api.ReconnectDelay ≤ s.api.MaximumReconnectDelay ∧
      s.api.MaximumReconnectDelay = 2 :=
  ⟨by decide, by decide, _, rfl,
    C4_delay_bound_invariant ⟨true, demoLib⟩ true 2 (by decide) (by decide)
      [.Initialize "abc123" true true, .Connect false, .OnConnectionError "refused" false,
        .TimerFired false, .OnConnectionError "refused" false] _ rfl⟩

/-- C5. Forced versus unexpected closure. In every state `s` reached from a fresh controller
with `State = Connected`: (a) `Disconnect()` followed by the closed notification broadcasts
`NotConnected` and `OnDisconnected(true)` and nothing else, leaves `State = NotConnected` and
`bDisconnecting` cleared, schedules no timer and issues no `Socket->Connect()`; (b) when no
`Disconnect()` is in progress (`bDisconnecting = false`, as after any run without
`Disconnect()`), the closed notification broadcasts `NotConnected` and
`OnDisconnected(false)` and, with `bAutoReconnect` and a world, then broadcasts `Reconnecting`
and schedules one timer, leaving `State = Reconnecting` and `bReconnecting` set. -/
theorem C5_forced_vs_unexpected_closure (env : Env) (auto : Bool) (M : ℚ) (evs : List Event)
    (s : Sys) (code : Int) (reason : String) (clean tc : Bool)
    (h : run env (fresh auto M) evs = .ok s) (hC : s.api.State = .Connected) :
    (∃ s2 : Sys,
      step env (Disconnect env s) (.OnClosed code reason clean tc) = .ok s2 ∧
      s2.log = (Disconnect env s).log ++ [.OnConnectionState .NotConnected, .OnDisconnected true] ∧
      s2.api.State = .NotConnected ∧ s2.api.bDisconnecting = false ∧
      scheduled s2.log = scheduled s.log ∧ connects s2.log = connects s.log ∧
      s2.timer = (Disconnect env s).timer) ∧
    (Event.Disconnect ∉ evs → s.api.bDisconnecting = false) ∧
    (s.api.bDisconnecting = false →
      ∃ (s1 : Sys) (rest : List Effect),
        step env s (.OnClosed code reason clean tc) = .ok s1 ∧
        s1.log = s.log ++ [.OnConnectionState .NotConnected, .OnDisconnected false] ++ rest ∧
        (auto = true → env.World = true →
          rest = [.OnConnectionState .Reconnecting, .SetTimer s.api.ReconnectDelay] ∧
          s1.api.State = .Reconnecting ∧ s1.api.bReconnecting = true ∧
          s1.timer = some s.api.ReconnectDelay)) := by
  have hI : ConnectedInv auto env.World s :=
    run_invariant env (ConnectedInv auto env.World)
      (fun t t1 e hP ht => step_ConnectedInv env auto t t1 e hP ht) evs (fresh auto M) s
      ⟨rfl, by simp [fresh], by simp [fresh]⟩ h
  have hD : Event.Disconnect ∉ evs → s.api.bDisconnecting = false :=
    fun hn => run_not_disconnecting env evs (fresh auto M) s hn rfl h
  clear h
  obtain ⟨hA, hS, hR⟩ := hI
  have hS1 := hS hC
  obtain ⟨⟨a, M0, st, rt, sock, wm, d, bd, br⟩, timer, log⟩ := s
  obtain ⟨W, lib⟩ := env
  simp only at hA hS1 hR hC hD
  subst hA hC
  cases sock with
  | none => simp at hS1
  | some w =>
    refine ⟨?_, hD, ?_⟩
    · cases bd <;> cases rt <;> cases W <;>
        simp [step, Disconnect, HandleConnectionClosed, ChangeState, ClearTimer, emit,
          scheduled_append, scheduled, connects]
    · intro hbd
      simp only at hbd
      subst hbd
      cases a <;> cases W <;> cases br <;> cases tc <;>
        simp [step, HandleConnectionClosed, HandleReconnction, Connect, IsConnected,
          ChangeState, SetTimer, emit] at hR ⊢

/-- C5 at a concrete run: `Initialize`, `Connect`, connected. -/
theorem C5_forced_vs_unexpected_closure_witness :
    ∃ s : Sys,
      run ⟨true, demoLib⟩ (fresh true 60)
        [.Initialize "abc123" true true, .Connect false, .OnConnected] = .ok s ∧
      s.api.State = .Connected ∧ s.api.bDisconnecting = false ∧
      (∃ s2 : Sys,
        step ⟨true, demoLib⟩ (Disconnect ⟨true, demoLib⟩ s) (.OnClosed 1000 "bye" true false)
          = .ok s2 ∧
        s2.log = (Disconnect ⟨true, demoLib⟩ s).log ++
          [.OnConnectionState .NotConnected, .OnDisconnected true] ∧
        s2.api.State = .NotConnected ∧ s2.api.bDisconnecting = false ∧
        scheduled s2.log = scheduled s.log ∧ connects s2.log = connects s.log ∧
        s2.timer = (Disconnect ⟨true, demoLib⟩ s).timer) ∧
      (Event.Disconnect ∉
          [Event.Initialize "abc123" true true, Event.Connect false, Event.OnConnected] →
        s.api.bDisconnecting = false) ∧
      (s.api.bDisconnecting = false →
        ∃ (s1 : Sys) (rest : List Effect),
          step ⟨true, demoLib⟩ s (.OnClosed 1000 "bye" true false) = .ok s1 ∧
          s1.log = s.log ++ [.OnConnectionState .NotConnected, .OnDisconnected false] ++ rest ∧
          (true = true → (⟨true, demoLib⟩ : Env).World = true →
            rest = [.OnConnectionState .Reconnecting, .SetTimer s.api.ReconnectDelay] ∧
            s1.api.State = .Reconnecting ∧ s1.api.bReconnecting = true ∧
            s1.timer = some s.api.ReconnectDelay)) :=
  ⟨_, rfl, rfl, rfl,
    C5_forced_vs_unexpected_closure ⟨true, demoLib⟩ true 60
      [.Initialize "abc123" true true, .Connect false, .OnConnected] _ 1000 "bye" true false
      rfl rfl⟩

/-- C6, the code at two failing inputs. First run: `Disconnect()` while connected, then a
transport error before the closed notification; the error lambda starts a reconnect cycle
(`State = Reconnecting`, timer pending), a further `Disconnect()` returns at once because
`bDisconnecting` is set and leaves the timer pending, and after the closed notification the
timer fires and `Socket->Connect()` is issued. Second run: `Disconnect()` in `Reconnecting`
cancels the timer, but a following transport error schedules a new one (for 2 seconds). -/
theorem C6_disconnect_does_not_stop_reconnect :
    (∃ s s1 s2 s3 : Sys,
      run ⟨true, demoLib⟩ (fresh true 60)
        [.Initialize "abc123" true true, .Connect false, .OnConnected, .Disconnect,
          .OnConnectionError "reset" false] = .ok s ∧
      s.api.State = .Reconnecting ∧ s.timer = some 1 ∧
      step ⟨true, demoLib⟩ s .Disconnect = .ok s1 ∧ s1 = s ∧
      step ⟨true, demoLib⟩ s1 (.OnClosed 1000 "User requested disconnect" true false)
        = .ok s2 ∧ s2.timer = some 1 ∧
      step ⟨true, demoLib⟩ s2 (.TimerFired false) = .ok s3 ∧
      connects s3.log = connects s2.log + 1) ∧
    (∃ s s1 s2 : Sys,
      run ⟨true, demoLib⟩ (fresh true 60)
        [.Initialize "abc123" true true, .Connect false, .OnConnected,
          .OnClosed 1006 "" false false] = .ok s ∧
      s.api.State = .Reconnecting ∧ s.timer = some 1 ∧
      step ⟨true, demoLib⟩ s .Disconnect = .ok s1 ∧ s1.timer = none ∧
      step ⟨true, demoLib⟩ s1 (.OnConnectionError "reset" false) = .ok s2 ∧
      s2.timer = some 2 ∧ scheduled s2.log = scheduled s1.log ++ [2]) := by
  refine ⟨⟨_, _, _, _, rfl, ?_, ?_, rfl, ?_, rfl, ?_, rfl, ?_⟩,
    ⟨_, _, _, rfl, ?_, ?_, rfl, ?_, rfl, ?_, ?_⟩⟩ <;>
    simp [Initialize, Connect, Disconnect, HandleConnection, HandleConnectionClosed,
      HandleConnectionError, HandleReconnction, ChangeState, SetTimer, ClearTimer, emit, fresh,
      IsConnected, GetURLAndProtocol, scheduled, connects] <;> norm_num

/-- C7 as stated fails: after `Initialize` and `Connect()` the controller is initialized with
`State = Connecting`; a second `Connect()`, the socket still not connected, changes the state
of the controller: it broadcasts `Connecting` again and issues a second `Socket->Connect()`. -/
theorem C7_connect_while_connecting_counterexample :
    ∃ s s1 : Sys,
      run ⟨true, demoLib⟩ (fresh true 60)
        [.Initialize "abc123" true true, .Connect false] = .ok s ∧
      s.api.State = .Connecting ∧ s.api.Socket.isSome = true ∧
      Connect false s = .ok s1 ∧ s1 ≠ s ∧
      s1.log = s.log ++ [.OnConnectionState .Connecting, .SocketConnect] := by
  refine ⟨_, _, rfl, ?_, ?_, rfl, ?_, ?_⟩ <;>
    simp [Initialize, Connect, ChangeState, emit, fresh, IsConnected, GetURLAndProtocol]

/-- C7, amended. `Connect()` is guarded by `IsConnected()`, not by `State`: for every
initialized controller, when the socket reports connected `Connect()` leaves the whole state
unchanged (no `Socket->Connect()`, no broadcast); when it reports not connected `Connect()`
sets and broadcasts `Connecting` and issues `Socket->Connect()`, whatever `State` was. -/
theorem C7_connect_noop_iff_socket_connected (env : Env) (s : Sys)
    (hS : s.api.Socket.isSome = true) :
    IsConnected true s = true ∧ Connect true s = .ok s ∧
    step env s (.Connect true) = .ok s ∧
    IsConnected false s = false ∧
    Connect false s = .ok { s with
      api := { s.api with State := .Connecting }
      log := s.log ++ [.OnConnectionState .Connecting, .SocketConnect] } := by
  obtain ⟨⟨a, M0, st, rt, sock, wm, d, bd, br⟩, timer, log⟩ := s
  cases sock with
  | none => simp at hS
  | some w => simp [step, Connect, IsConnected, ChangeState, emit]

/-- C7 amended, at the controller just initialized. -/
theorem C7_connect_noop_iff_socket_connected_witness :
    (Initialize "abc123" true true (fresh true 60)).2.api.Socket.isSome = true ∧
    (IsConnected true (Initialize "abc123" true true (fresh true 60)).2 = true ∧
    Connect true (Initialize "abc123" true true (fresh true 60)).2
      = .ok (Initialize "abc123" true true (fresh true 60)).2 ∧
    step ⟨true, demoLib⟩ (Initialize "abc123" true true (fresh true 60)).2 (.Connect true)
      = .ok (Initialize "abc123" true true (fresh true 60)).2 ∧
    IsConnected false (Initialize "abc123" true true (fresh true 60)).2 = false ∧
    Connect false (Initialize "abc123" true true (fresh true 60)).2
      = .ok { (Initialize "abc123" true true (fresh true 60)).2 with
        api := { (Initialize "abc123" true true (fresh true 60)).2.api with
          State := .Connecting }
        log := (Initialize "abc123" true true (fresh true 60)).2.log ++
          [.OnConnectionState .Connecting, .SocketConnect] }) :=
  ⟨rfl, C7_connect_noop_iff_socket_connected ⟨true, demoLib⟩
    (Initialize "abc123" true true (fresh true 60)).2 rfl⟩

/-- C8. `Initialize` result and atomic failure. With the WebSocket module available (already
loaded, or loading now), `Initialize` returns true exactly when `Socket` was null and
`CreateWebSocket` gave a socket; when it returns false, `Socket`, `State`, `ReconnectDelay`,
`bDisconnecting`, `bReconnecting` and the timer are as before, no handler is bound, and
`CreateWebSocket` is not even called when a socket already existed. -/
theorem C8_initialize_result (c : String) (m k : Bool) (s : Sys)
    (hmod : (s.api.WebSocketModule || m) = true) :
    ((Initialize c m k s).1 = true ↔ (s.api.Socket = none ∧ k = true)) ∧
    ((Initialize c m k s).1 = false →
      (Initialize c m k s).2.api.Socket = s.api.Socket ∧
      (Initialize c m k s).2.api.State = s.api.State ∧
      (Initialize c m k s).2.api.ReconnectDelay = s.api.ReconnectDelay ∧
      (Initialize c m k s).2.api.bDisconnecting = s.api.bDisconnecting ∧
      (Initialize c m k s).2.api.bReconnecting = s.api.bReconnecting ∧
      (Initialize c m k s).2.timer = s.timer ∧
      (Initialize c m k s).2.log = s.log ++
        (if s.api.Socket.isSome then []
         else [.CreateWebSocket ("wss://heat-api.j38.net/channel/" ++ c) "wss"])) := by
  obtain ⟨⟨a, M0, st, rt, sock, wm, d, bd, br⟩, timer, log⟩ := s
  simp only at hmod
  cases sock <;> cases wm <;> cases m <;> cases k <;>
    simp [Initialize, GetURLAndProtocol, emit] at hmod ⊢

/-- C8 at a second `Initialize` on an initialized controller. -/
theorem C8_initialize_result_witness :
    ((Initialize "abc123" true true (fresh true 60)).2.api.WebSocketModule || false) = true ∧
    (Initialize "xyz" false true (Initialize "abc123" true true (fresh true 60)).2).1 = false ∧
    (((Initialize "xyz" false true (Initialize "abc123" true true (fresh true 60)).2).1 = true ↔
      ((Initialize "abc123" true true (fresh true 60)).2.api.Socket = none ∧ true = true)) ∧
    ((Initialize "xyz" false true (Initialize "abc123" true true (fresh true 60)).2).1 = false →
      (Initialize "xyz" false true (Initialize "abc123" true true (fresh true 60)).2).2.api.Socket
        = (Initialize "abc123" true true (fresh true 60)).2.api.Socket ∧
      (Initialize "xyz" false true (Initialize "abc123" true true (fresh true 60)).2).2.api.State
        = (Initialize "abc123" true true (fresh true 60)).2.api.State ∧
      (Initialize "xyz" false true
          (Initialize "abc123" true true (fresh true 60)).2).2.api.ReconnectDelay
        = (Initialize "abc123" true true (fresh true 60)).2.api.ReconnectDelay ∧
      (Initialize "xyz" false true
          (Initialize "abc123" true true (fresh true 60)).2).2.api.bDisconnecting
        = (Initialize "abc123" true true (fresh true 60)).2.api.bDisconnecting ∧
      (Initialize "xyz" false true
          (Initialize "abc123" true true (fresh true 60)).2).2.api.bReconnecting
        = (Initialize "abc123" true true (fresh true 60)).2.api.bReconnecting ∧
      (Initialize "xyz" false true (Initialize "abc123" true true (fresh true 60)).2).2.timer
        = (Initialize "abc123" true true (fresh true 60)).2.timer ∧
      (Initialize "xyz" false true (Initialize "abc123" true true (fresh true 60)).2).2.log
        = (Initialize "abc123" true true (fresh true 60)).2.log ++
          (if (Initialize "abc123" true true (fresh true 60)).2.api.Socket.isSome then []
           else [.CreateWebSocket ("wss://heat-api.j38.net/channel/" ++ "xyz") "wss"]))) :=
  ⟨rfl, rfl, C8_initialize_result "xyz" false true (Initialize "abc123" true true (fresh true 60)).2 rfl⟩

/-- C9. Endpoint construction. For every channel id `c`, `GetURLAndProtocol` gives the address
`"wss://heat-api.j38.net/channel/"` followed by `c` and the protocol `"wss"`; whenever
`Initialize` gets as far as the transport, the first thing it appends to the log is
`CreateWebSocket` with exactly these two arguments (followed by handler bindings only), and
the socket it stores, if one is created, carries them; `c` is a suffix of the address and the address without the
fixed head is `c`. -/
theorem C9_endpoint_construction (c : String) (m k : Bool) (s : Sys)
    (hmod : (s.api.WebSocketModule || m) = true) (hsock : s.api.Socket = none) :
    GetURLAndProtocol c = ("wss://heat-api.j38.net/channel/" ++ c, "wss") ∧
    (∃ tail : List Effect,
      (Initialize c m k s).2.log
        = s.log ++ .CreateWebSocket ("wss://heat-api.j38.net/channel/" ++ c) "wss" :: tail ∧
      ∀ e ∈ tail, ∃ h : Handler, e = .AddHandler h) ∧
    (Initialize c m k s).2.api.Socket
      = (if k then some ⟨"wss://heat-api.j38.net/channel/" ++ c, "wss"⟩ else none) ∧
    c.data <:+ ("wss://heat-api.j38.net/channel/" ++ c).data ∧
    ("wss://heat-api.j38.net/channel/" ++ c).data.drop "wss://heat-api.j38.net/channel/".length
      = c.data := by
  obtain ⟨⟨a, M0, st, rt, sock, wm, d, bd, br⟩, timer, log⟩ := s
  simp only at hmod hsock
  subst hsock
  refine ⟨rfl, ?_, ?_, ?_, ?_⟩
  · cases wm <;> cases m <;> cases k <;>
      simp [Initialize, GetURLAndProtocol, emit] at hmod ⊢
  · cases wm <;> cases m <;> cases k <;>
      simp [Initialize, GetURLAndProtocol, emit] at hmod ⊢
  · rw [String.data_append]
    exact List.suffix_append _ _
  · rw [String.data_append]
    exact List.drop_left' rfl

/-- C9 at the channel id `abc123` on a fresh controller. -/
theorem C9_endpoint_construction_witness :
    ((fresh true 60).api.WebSocketModule || true) = true ∧ (fresh true 60).api.Socket = none ∧
    (GetURLAndProtocol "abc123" = ("wss://heat-api.j38.net/channel/" ++ "abc123", "wss") ∧
    (∃ tail : List Effect,
      (Initialize "abc123" true true (fresh true 60)).2.log
        = (fresh true 60).log ++
          .CreateWebSocket ("wss://heat-api.j38.net/channel/" ++ "abc123") "wss" :: tail ∧
      ∀ e ∈ tail, ∃ h : Handler, e = .AddHandler h) ∧
    (Initialize "abc123" true true (fresh true 60)).2.api.Socket
      = (if true then some ⟨"wss://heat-api.j38.net/channel/" ++ "abc123", "wss"⟩ else none) ∧
    "abc123".data <:+ ("wss://heat-api.j38.net/channel/" ++ "abc123").data ∧
    ("wss://heat-api.j38.net/channel/" ++ "abc123").data.drop
        "wss://heat-api.j38.net/channel/".length
      = "abc123".data) :=
  ⟨rfl, rfl, C9_endpoint_construction "abc123" true true (fresh true 60) rfl rfl⟩

/-- The binary exponent of a number between two consecutive powers of two. -/
theorem log2_eq (a : ℚ) (e : ℤ) (h1 : (2:ℚ) ^ e ≤ a) (h2 : a < 2 ^ (e + 1)) :
    Int.log 2 a = e := by
  have ha : 0 < a := lt_of_lt_of_le (by positivity) h1
  apply le_antisymm
  · have := (Int.lt_zpow_iff_log_lt (R := ℚ) (b := 2) (by norm_num) ha).1 (by exact_mod_cast h2)
    omega
  · exact (Int.zpow_le_iff_le_log (R := ℚ) (b := 2) (by norm_num) ha).1 (by exact_mod_cast h1)

/-- An integer rounds to itself. -/
theorem roundHalfEven_intCast (n : ℤ) : roundHalfEven (n : ℚ) = n := by
  simp [roundHalfEven]


/-- The narrowing of a nonzero number, once the exponent is known. -/
theorem toFloat_of_exponent (x : ℚ) (e : ℤ) (hx : x ≠ 0)
    (he : max (Int.log 2 |x|) (-126) = e) :
    toFloat x =
      if (2:ℚ) ^ 128 ≤ roundHalfEven (|x| / 2 ^ (e - 23)) * 2 ^ (e - 23) then
        .inf (decide (x < 0))
      else .finite (if x < 0 then -(roundHalfEven (|x| / 2 ^ (e - 23)) * 2 ^ (e - 23))
        else roundHalfEven (|x| / 2 ^ (e - 23)) * 2 ^ (e - 23)) := by
  unfold toFloat
  rw [if_neg hx]
  simp only [he]

/-- The `double` nearest to 0.1 narrows to `13421773 / 2 ^ 27`. -/
theorem toFloat_tenth :
    toFloat (3602879701896397 / 36028797018963968) = .finite (13421773 / 134217728) := by
  have hx : (0:ℚ) < 3602879701896397 / 36028797018963968 := by norm_num
  have hlog : Int.log 2 |(3602879701896397 / 36028797018963968 : ℚ)| = -4 := by
    rw [abs_of_pos hx]
    exact log2_eq _ (-4) (by norm_num) (by norm_num)
  have hf : ⌊|(3602879701896397 / 36028797018963968 : ℚ)| / 2 ^ ((-4 : ℤ) - 23)⌋
      = 13421772 := by
    rw [abs_of_pos hx, Int.floor_eq_iff]
    constructor <;> norm_num
  have hr : roundHalfEven (|(3602879701896397 / 36028797018963968 : ℚ)| / 2 ^ ((-4 : ℤ) - 23))
      = 13421773 := by
    unfold roundHalfEven
    rw [hf, abs_of_pos hx]
    norm_num
  rw [toFloat_of_exponent _ (-4) hx.ne' (by rw [hlog]; rfl), hr,
    if_neg (by norm_num), if_neg (by norm_num)]
  norm_num

/-- The number `2 ^ 128` narrows to plus infinity. -/
theorem toFloat_overflow : toFloat (2 ^ 128) = .inf false := by
  have hx : (0:ℚ) < 2 ^ 128 := by positivity
  have hlog : Int.log 2 |(2:ℚ) ^ 128| = 128 := by
    rw [abs_of_pos hx]
    exact log2_eq _ 128 (by norm_num) (by norm_num)
  have hr : roundHalfEven (|(2:ℚ) ^ 128| / 2 ^ ((128 : ℤ) - 23)) = 2 ^ 23 := by
    have : (|(2:ℚ) ^ 128| / 2 ^ ((128 : ℤ) - 23)) = ((2 ^ 23 : ℤ) : ℚ) := by
      rw [abs_of_pos hx]
      norm_num
    rw [this, roundHalfEven_intCast]
  rw [toFloat_of_exponent _ 128 hx.ne' (by rw [hlog]; rfl), hr, if_pos (by norm_num)]
  simp

/-- A number that is a `float` value narrows to itself. -/
theorem toFloat_exact (x : ℚ) (hx : IsFloat x) : toFloat x = .finite x := by
  obtain ⟨m, k, hm, hk1, hk2, rfl⟩ := hx
  by_cases h0 : ((m : ℚ) * 2 ^ k) = 0
  · simp [toFloat, h0]
  have hm0 : m ≠ 0 := by
    rintro rfl
    simp at h0
  have h2k : (0:ℚ) < 2 ^ k := by positivity
  have habs : |(m : ℚ) * 2 ^ k| = (|m| : ℤ) * 2 ^ k := by
    rw [abs_mul, abs_of_pos h2k, Int.cast_abs]
  have hapos : (0:ℚ) < (|m| : ℤ) * 2 ^ k := by
    have : (0:ℚ) < ((|m| : ℤ) : ℚ) := by exact_mod_cast abs_pos.2 hm0
    positivity
  have hmlt : ((|m| : ℤ) : ℚ) < 2 ^ (24 : ℤ) := by exact_mod_cast hm
  have hL : Int.log 2 ((|m| : ℤ) * 2 ^ k : ℚ) < k + 24 := by
    apply (Int.lt_zpow_iff_log_lt (R := ℚ) (b := 2) (by norm_num) hapos).1
    have : ((|m| : ℤ) : ℚ) * 2 ^ k < 2 ^ (24 : ℤ) * 2 ^ k :=
      mul_lt_mul_of_pos_right hmlt h2k
    rw [← zpow_add₀ (by norm_num : (2:ℚ) ≠ 0)] at this
    rw [add_comm]
    exact_mod_cast this
  obtain ⟨e, he⟩ : ∃ e : ℤ, max (Int.log 2 |(m : ℚ) * 2 ^ k|) (-126) = e := ⟨_, rfl⟩
  have hek : e ≤ k + 23 := by
    rw [← he, habs]
    apply max_le <;> omega
  obtain ⟨d, hd⟩ := Int.eq_ofNat_of_zero_le (by omega : 0 ≤ k + 23 - e)
  have hqpos : (0:ℚ) < 2 ^ (e - 23) := by positivity
  have hq : |(m : ℚ) * 2 ^ k| / 2 ^ (e - 23) = ((|m| * 2 ^ d : ℤ) : ℚ) := by
    have hkd : k = (e - 23) + d := by omega
    rw [habs, hkd, zpow_add₀ (by norm_num : (2:ℚ) ≠ 0)]
    field_simp
    ring
  have hv : (((|m| * 2 ^ d : ℤ) : ℚ)) * 2 ^ (e - 23) = |(m : ℚ) * 2 ^ k| := by
    rw [← hq]
    field_simp
  have hbound : |(m : ℚ) * 2 ^ k| < 2 ^ 128 := by
    have h104 : (2:ℚ) ^ k ≤ 2 ^ (104 : ℤ) := zpow_le_zpow_right₀ (by norm_num) hk2
    rw [habs]
    calc ((|m| : ℤ) : ℚ) * 2 ^ k ≤ (|m| : ℤ) * 2 ^ (104 : ℤ) := by
          apply mul_le_mul_of_nonneg_left h104
          exact_mod_cast abs_nonneg m
      _ < 2 ^ (24 : ℤ) * 2 ^ (104 : ℤ) := by
          apply mul_lt_mul_of_pos_right hmlt
          positivity
      _ = 2 ^ 128 := by norm_num
  rw [toFloat_of_exponent _ e h0 he, hq, roundHalfEven_intCast, hv, if_neg (not_le.2 hbound)]
  congr 1
  by_cases hneg : (m : ℚ) * 2 ^ k < 0
  · rw [if_pos hneg, abs_of_neg hneg, neg_neg]
  · rw [if_neg hneg, abs_of_nonneg (not_lt.1 hneg)]

/-- Zero narrows to zero. -/
theorem toFloat_zero : toFloat 0 = .finite 0 := by
  simp [toFloat]

/-- The numbers 0.25 and 0.75 are `float` values. -/
theorem isFloat_quarters : IsFloat (1/4) ∧ IsFloat (3/4) :=
  ⟨⟨1, -2, by norm_num, by norm_num, by norm_num, by norm_num⟩,
    ⟨3, -2, by norm_num, by norm_num, by norm_num, by norm_num⟩⟩

/-- What `HandleMessage` does with a record whose `type` is a string equal to `click`
ignoring case: one `OnClickReceived`, the fields read through the accessors. -/
theorem HandleMessage_click (lib : JsonLib) (Message : String) (Root : FJsonObject)
    (t : String) (s : Sys)
    (hparse : lib.Deserialize Message = some Root)
    (htype : Root "type" = some (.String t)) (hclick : CompareIgnoreCase t "click" = true) :
    HandleMessage lib Message s
      = { s with log := s.log ++ [.OnClickReceived
          ⟨GetStringField lib Root "id",
            (toFloat (GetNumberField lib Root "x"), toFloat (GetNumberField lib Root "y"))⟩] } := by
  simp [HandleMessage, GetStringField, emit, hparse, htype, hclick, AsString]

/-- C10 as stated fails: the message `{"type":"click","id":"u1","x":0.1,"y":0.75}` parses
to a click record with a string `id` and numbers `x` and `y`, and the event broadcast has the
first coordinate `13421773 / 2 ^ 27`, the `float` nearest to `x`, not `x`. -/
theorem C10_inexact_coordinate_counterexample :
    tenthLib.Deserialize "\x7b\"type\":\"click\",\"id\":\"u1\",\"x\":0.1,\"y\":0.75\x7d"
      = some tenthRecord ∧
    tenthRecord "type" = some (.String "click") ∧ tenthRecord "id" = some (.String "u1") ∧
    tenthRecord "x" = some (.Number (3602879701896397 / 36028797018963968)) ∧
    tenthRecord "y" = some (.Number (3/4)) ∧
    HandleMessage tenthLib "\x7b\"type\":\"click\",\"id\":\"u1\",\"x\":0.1,\"y\":0.75\x7d"
        (fresh true 60)
      = { fresh true 60 with
          log := [.OnClickReceived
            ⟨"u1", (.finite (13421773 / 134217728), .finite (3/4))⟩] } ∧
    CFloat.finite (13421773 / 134217728)
      ≠ CFloat.finite (3602879701896397 / 36028797018963968) := by
  refine ⟨rfl, rfl, rfl, rfl, rfl, ?_, ?_⟩
  · rw [HandleMessage_click tenthLib
      "\x7b\"type\":\"click\",\"id\":\"u1\",\"x\":0.1,\"y\":0.75\x7d" tenthRecord "click"
      (fresh true 60) rfl rfl (by decide)]
    have hx : GetNumberField tenthLib tenthRecord "x"
        = 3602879701896397 / 36028797018963968 := rfl
    have hy : GetNumberField tenthLib tenthRecord "y" = 3/4 := rfl
    have hid : GetStringField tenthLib tenthRecord "id" = "u1" := rfl
    rw [hx, hy, hid, toFloat_tenth, toFloat_exact _ isFloat_quarters.2]
    rfl
  · intro h
    injection h with h
    norm_num at h

/-- C10, amended. The decoder accepts well-formed clicks. If the message deserializes to a
record whose `type` is a string equal to `click` ignoring case, whose `id` is a string and
whose `x` and `y` are numbers, `HandleMessage` changes nothing but the log, to which it
appends exactly one `OnClickReceived` with that id and the coordinates `x` and `y` converted
to `float`; a coordinate that is a `float` value arrives as it is, one that is not arrives
rounded, and `2 ^ 128` arrives as plus infinity; `click`, `Click` and `CLICK` all compare
equal to `click`. -/
theorem C10_decoder_accepts_clicks (lib : JsonLib) (Message : String) (Root : FJsonObject)
    (t id : String) (x y : ℚ) (s : Sys)
    (hparse : lib.Deserialize Message = some Root)
    (htype : Root "type" = some (.String t)) (hclick : CompareIgnoreCase t "click" = true)
    (hid : Root "id" = some (.String id))
    (hx : Root "x" = some (.Number x)) (hy : Root "y" = some (.Number y)) :
    HandleMessage lib Message s
      = { s with log := s.log ++ [.OnClickReceived ⟨id, (toFloat x, toFloat y)⟩] } ∧
    (IsFloat x → toFloat x = .finite x) ∧ (IsFloat y → toFloat y = .finite y) ∧
    toFloat (2 ^ 128) = .inf false ∧
    CompareIgnoreCase "click" "click" = true ∧ CompareIgnoreCase "Click" "click" = true ∧
    CompareIgnoreCase "CLICK" "click" = true := by
  refine ⟨?_, toFloat_exact x, toFloat_exact y, toFloat_overflow, by decide, by decide,
    by decide⟩
  rw [HandleMessage_click lib Message Root t s hparse htype hclick]
  simp [GetStringField, GetNumberField, AsString, AsNumber, hid, hx, hy]

/-- C10 amended, at the message `{"type":"click","id":"u1","x":0.25,"y":0.75}`: both
numbers are `float` values and the event is `u1` at `(0.25, 0.75)`. -/
theorem C10_decoder_accepts_clicks_witness :
    clickLib.Deserialize "\x7b\"type\":\"click\",\"id\":\"u1\",\"x\":0.25,\"y\":0.75\x7d"
      = some clickRecord ∧
    clickRecord "type" = some (.String "click") ∧ CompareIgnoreCase "click" "click" = true ∧
    clickRecord "id" = some (.String "u1") ∧
    clickRecord "x" = some (.Number (1/4)) ∧ clickRecord "y" = some (.Number (3/4)) ∧
    IsFloat (1/4) ∧ IsFloat (3/4) ∧
    (HandleMessage clickLib "\x7b\"type\":\"click\",\"id\":\"u1\",\"x\":0.25,\"y\":0.75\x7d"
        (fresh true 60)
      = { fresh true 60 with
          log := (fresh true 60).log ++
            [.OnClickReceived ⟨"u1", (toFloat (1/4), toFloat (3/4))⟩] } ∧
    (IsFloat (1/4) → toFloat (1/4) = .finite (1/4)) ∧
    (IsFloat (3/4) → toFloat (3/4) = .finite (3/4)) ∧
    toFloat (2 ^ 128) = .inf false ∧
    CompareIgnoreCase "click" "click" = true ∧ CompareIgnoreCase "Click" "click" = true ∧
    CompareIgnoreCase "CLICK" "click" = true) ∧
    HandleMessage clickLib "\x7b\"type\":\"click\",\"id\":\"u1\",\"x\":0.25,\"y\":0.75\x7d"
        (fresh true 60)
      = { fresh true 60 with
          log := [.OnClickReceived ⟨"u1", (.finite (1/4), .finite (3/4))⟩] } := by
  have h := C10_decoder_accepts_clicks clickLib
    "\x7b\"type\":\"click\",\"id\":\"u1\",\"x\":0.25,\"y\":0.75\x7d" clickRecord
    "click" "u1" (1/4) (3/4) (fresh true 60) rfl rfl (by decide) rfl rfl rfl
  refine ⟨rfl, rfl, by decide, rfl, rfl, rfl, isFloat_quarters.1, isFloat_quarters.2, h, ?_⟩
  rw [h.1, h.2.1 isFloat_quarters.1, h.2.2.1 isFloat_quarters.2]
  rfl

/-- C11 as stated fails: the message `{"type":"click","id":"u1"}` parses to a click record
with an `id` and neither `x` nor `y`, and `HandleMessage` broadcasts one `OnClickReceived`,
for the user `u1` at the coordinates `(0, 0)`, the `float` of the default 0. -/
theorem C11_click_without_coordinates_counterexample :
    feedLib.Deserialize "\x7b\"type\":\"click\",\"id\":\"u1\"\x7d" = some partialClickRecord ∧
    partialClickRecord "type" = some (.String "click") ∧
    partialClickRecord "id" = some (.String "u1") ∧
    partialClickRecord "x" = none ∧ partialClickRecord "y" = none ∧
    HandleMessage feedLib "\x7b\"type\":\"click\",\"id\":\"u1\"\x7d" (fresh true 60)
      = { fresh true 60 with
          log := [.OnClickReceived ⟨"u1", (.finite 0, .finite 0)⟩] } := by
  refine ⟨rfl, rfl, rfl, rfl, rfl, ?_⟩
  simp [HandleMessage, GetStringField, GetNumberField, AsString, AsNumber, emit, feedLib,
    partialClickRecord, fresh, List.lookup, toFloat_zero]
  decide

/-- C11, amended. `HandleMessage` does not validate the fields of a click: for every
message that parses to a record whose `type` is a string equal to `click` ignoring case, it
appends exactly one `OnClickReceived`, whatever `id`, `x` and `y` are. Each field is read
through the defaulting accessors: an absent, null, array or object `id` reads as the empty
string and an absent, null, array or object `x` or `y` as 0. -/
theorem C11_decoder_emits_for_every_click_record (lib : JsonLib) (Message : String)
    (Root : FJsonObject) (t : String)
    (vid vx vy : Option FJsonValue) (s : Sys)
    (hparse : lib.Deserialize Message = some Root)
    (htype : Root "type" = some (.String t)) (hclick : CompareIgnoreCase t "click" = true)
    (hid : Root "id" = vid) (hx : Root "x" = vx) (hy : Root "y" = vy) :
    HandleMessage lib Message s
      = { s with log := s.log ++ [.OnClickReceived
          ⟨AsString lib (vid.getD .Null),
            (toFloat (AsNumber lib (vx.getD .Null)),
              toFloat (AsNumber lib (vy.getD .Null)))⟩] } ∧
    AsString lib .Null = "" ∧ AsString lib .Array = "" ∧ AsString lib .Object = "" ∧
    AsNumber lib .Null = 0 ∧ AsNumber lib .Array = 0 ∧ AsNumber lib .Object = 0 := by
  refine ⟨?_, rfl, rfl, rfl, rfl, rfl, rfl⟩
  simp [HandleMessage, GetStringField, GetNumberField, emit, hparse, htype, hclick, hid, hx,
    hy, AsString]

/-- C11 amended, at the message `{"type":"click","id":"u1"}`. -/
theorem C11_decoder_emits_for_every_click_record_witness :
    feedLib.Deserialize "\x7b\"type\":\"click\",\"id\":\"u1\"\x7d" = some partialClickRecord ∧
    partialClickRecord "type" = some (.String "click") ∧
    CompareIgnoreCase "click" "click" = true ∧
    partialClickRecord "id" = some (.String "u1") ∧
    partialClickRecord "x" = none ∧ partialClickRecord "y" = none ∧
    (HandleMessage feedLib "\x7b\"type\":\"click\",\"id\":\"u1\"\x7d" (fresh true 60)
      = { fresh true 60 with log := (fresh true 60).log ++ [.OnClickReceived
          ⟨AsString feedLib ((some (FJsonValue.String "u1")).getD .Null),
            (toFloat (AsNumber feedLib ((none : Option FJsonValue).getD .Null)),
              toFloat (AsNumber feedLib ((none : Option FJsonValue).getD .Null)))⟩] } ∧
    AsString feedLib .Null = "" ∧ AsString feedLib .Array = "" ∧
    AsString feedLib .Object = "" ∧
    AsNumber feedLib .Null = 0 ∧ AsNumber feedLib .Array = 0 ∧ AsNumber feedLib .Object = 0) :=
  ⟨rfl, rfl, by decide, rfl, rfl, rfl,
    C11_decoder_emits_for_every_click_record feedLib
      "\x7b\"type\":\"click\",\"id\":\"u1\"\x7d" partialClickRecord "click"
      (some (.String "u1")) none none (fresh true 60) rfl rfl (by decide) rfl rfl rfl⟩

/-- C12. The decoder ignores irrelevant input. If the message does not deserialize, or
deserializes to a record whose `type` is absent, is a string not equal to `click` ignoring
case, or is not a string (a number being read through its printed form, which is not
`click`), then `HandleMessage` returns the state it was given: nothing is appended to the
log (no click, error, disconnect or state broadcast, no call on the socket or the timer
manager) and no field of the controller changes; so does the message notification. -/
theorem C12_decoder_ignores_irrelevant_input (env : Env) (Message : String) (s : Sys)
    (h : env.Json.Deserialize Message = none ∨
      ∃ Root : FJsonObject, env.Json.Deserialize Message = some Root ∧
        (∀ t, Root "type" = some (.String t) → CompareIgnoreCase t "click" = false) ∧
        (∀ n, Root "type" = some (.Number n) →
          CompareIgnoreCase (env.Json.SanitizeFloat n) "click" = false)) :
    HandleMessage env.Json Message s = s ∧ step env s (.OnMessage Message) = .ok s := by
  have key : HandleMessage env.Json Message s = s := by
    rcases h with h | ⟨Root, hp, hs, hn⟩
    · simp [HandleMessage, GetStringField, AsString, h, CompareIgnoreCase]
    · cases hv : Root "type" with
      | none =>
        simp [HandleMessage, GetStringField, AsString, hp, hv, CompareIgnoreCase]
      | some v =>
        cases v with
        | String t => simp [HandleMessage, GetStringField, AsString, hp, hv, hs t hv]
        | Number n => simp [HandleMessage, GetStringField, AsString, hp, hv, hn n hv]
        | Boolean b =>
          cases b <;> simp [HandleMessage, GetStringField, AsString, hp, hv, CompareIgnoreCase]
        | Null =>
          simp [HandleMessage, GetStringField, AsString, hp, hv, CompareIgnoreCase]
        | Array =>
          simp [HandleMessage, GetStringField, AsString, hp, hv, CompareIgnoreCase]
        | Object =>
          simp [HandleMessage, GetStringField, AsString, hp, hv, CompareIgnoreCase]
  refine ⟨key, ?_⟩
  simp only [step, key]
  split <;> rfl

/-- C12 at the message `{"type":"ping"}` on an initialized controller. -/
theorem C12_decoder_ignores_irrelevant_input_witness :
    ((⟨true, feedLib⟩ : Env).Json.Deserialize "\x7b\"type\":\"ping\"\x7d" = none ∨
      ∃ Root : FJsonObject,
        (⟨true, feedLib⟩ : Env).Json.Deserialize "\x7b\"type\":\"ping\"\x7d" = some Root ∧
        (∀ t, Root "type" = some (.String t) → CompareIgnoreCase t "click" = false) ∧
        (∀ n, Root "type" = some (.Number n) →
          CompareIgnoreCase ((⟨true, feedLib⟩ : Env).Json.SanitizeFloat n) "click" = false)) ∧
    (HandleMessage (⟨true, feedLib⟩ : Env).Json "\x7b\"type\":\"ping\"\x7d"
        (Initialize "abc123" true true (fresh true 60)).2
      = (Initialize "abc123" true true (fresh true 60)).2 ∧
    step ⟨true, feedLib⟩ (Initialize "abc123" true true (fresh true 60)).2
        (.OnMessage "\x7b\"type\":\"ping\"\x7d")
      = .ok (Initialize "abc123" true true (fresh true 60)).2) := by
  have hyp : (⟨true, feedLib⟩ : Env).Json.Deserialize "\x7b\"type\":\"ping\"\x7d" = none ∨
      ∃ Root : FJsonObject,
        (⟨true, feedLib⟩ : Env).Json.Deserialize "\x7b\"type\":\"ping\"\x7d" = some Root ∧
        (∀ t, Root "type" = some (.String t) → CompareIgnoreCase t "click" = false) ∧
        (∀ n, Root "type" = some (.Number n) →
          CompareIgnoreCase ((⟨true, feedLib⟩ : Env).Json.SanitizeFloat n) "click" = false) := by
    refine Or.inr ⟨pingRecord, rfl, ?_, ?_⟩
    · intro t ht
      simp [pingRecord, List.lookup] at ht
      subst ht
      decide
    · intro n hn
      simp [pingRecord, List.lookup] at hn
  exact ⟨hyp, C12_decoder_ignores_irrelevant_input ⟨true, feedLib⟩ "\x7b\"type\":\"ping\"\x7d"
    (Initialize "abc123" true true (fresh true 60)).2 hyp⟩

/-- The `Socket->Connect()` calls of a log are those of its parts. -/
theorem connects_append (l l2 : List Effect) :
    connects (l ++ l2) = connects l + connects l2 := by
  simp [connects]

/-- With `bAutoReconnect` off, a socket notification never faults, schedules no timer,
issues no `Socket->Connect()` and leaves the pending timer alone. -/
theorem notification_without_autoreconnect (env : Env) (s : Sys) (e : Event)
    (hA : s.api.bAutoReconnect = false) (he : isNotification e = true) :
    ∃ s1 : Sys, step env s e = .ok s1 ∧ s1.api.bAutoReconnect = false ∧
      scheduled s1.log = scheduled s.log ∧ connects s1.log = connects s.log ∧
      s1.timer = s.timer := by
  obtain ⟨⟨a, M0, st, rt, sock, wm, d, bd, br⟩, timer, log⟩ := s
  obtain ⟨W, lib⟩ := env
  simp only at hA
  subst hA
  cases e <;> simp only [isNotification, Bool.false_eq_true] at he <;> cases sock <;>
    cases bd <;>
    simp [step, HandleConnection, HandleConnectionClosed, HandleConnectionError,
      HandleReconnction, HandleMessage, ChangeState, emit, scheduled_append, scheduled,
      connects] <;>
    split <;> simp [scheduled_append, scheduled]

/-- The same over any run of socket notifications. -/
theorem run_notifications_without_autoreconnect (env : Env) (ns : List Event) :
    ∀ s : Sys, s.api.bAutoReconnect = false → (∀ e ∈ ns, isNotification e = true) →
      ∃ s1 : Sys, run env s ns = .ok s1 ∧ s1.api.bAutoReconnect = false ∧
        scheduled s1.log = scheduled s.log ∧ connects s1.log = connects s.log ∧
        s1.timer = s.timer := by
  induction ns with
  | nil => exact fun s hA _ => ⟨s, rfl, hA, rfl, rfl, rfl⟩
  | cons e es ih =>
    intro s hA hns
    obtain ⟨s1, e1, hA1, hs1, hc1, ht1⟩ :=
      notification_without_autoreconnect env s e hA (hns e (List.mem_cons_self _ _))
    obtain ⟨s2, e2, hA2, hs2, hc2, ht2⟩ :=
      ih s1 hA1 (fun x hx => hns x (List.mem_cons_of_mem _ hx))
    exact ⟨s2, by simp [run, e1, e2], hA2, hs2.trans hs1, hc2.trans hc1, ht2.trans ht1⟩

/-- C13 as stated fails: with `bAutoReconnect` off, after `Initialize` and `Connect()` the
state is `Connecting`, and a transport error broadcasts `OnConnectionError` and leaves
`State = Connecting`, not `NotConnected`. -/
theorem C13_error_leaves_state_counterexample :
    ∃ s : Sys,
      run ⟨true, demoLib⟩ (fresh false 60)
        [.Initialize "abc123" true true, .Connect false,
          .OnConnectionError "refused" false] = .ok s ∧
      s.api.State = .Connecting ∧ s.api.State ≠ .NotConnected ∧
      s.log = [.CreateWebSocket "wss://heat-api.j38.net/channel/abc123" "wss",
        .AddHandler .OnConnected, .AddHandler .OnClosed, .AddHandler .OnMessage,
        .AddHandler .OnConnectionError, .OnConnectionState .Connecting, .SocketConnect,
        .OnConnectionError "refused"] := by
  refine ⟨_, rfl, ?_, ?_, ?_⟩ <;>
    simp [Initialize, Connect, HandleConnectionError, HandleReconnction, ChangeState, emit,
      fresh, IsConnected, GetURLAndProtocol]

/-- C13, amended. For every initialized controller with `bAutoReconnect` off, in any
state, a transport error with reason `r` appends exactly `OnConnectionError(r)` to the log,
clears `bReconnecting` and changes nothing else: `State` is left as it was. Over that error
and any further socket notifications no timer is scheduled, no `Socket->Connect()` is
issued and the pending timer is left alone. -/
theorem C13_error_without_autoreconnect (env : Env) (s : Sys) (r : String) (tc : Bool)
    (ns : List Event)
    (hS : s.api.Socket.isSome = true) (hA : s.api.bAutoReconnect = false)
    (hns : ∀ e ∈ ns, isNotification e = true) :
    step env s (.OnConnectionError r tc)
      = .ok { s with api := { s.api with bReconnecting := false }
                     log := s.log ++ [.OnConnectionError r] } ∧
    ∃ s2 : Sys,
      run env s (.OnConnectionError r tc :: ns) = .ok s2 ∧
      scheduled s2.log = scheduled s.log ∧ connects s2.log = connects s.log ∧
      s2.timer = s.timer := by
  have h1 : step env s (.OnConnectionError r tc)
      = .ok { s with api := { s.api with bReconnecting := false }
                     log := s.log ++ [.OnConnectionError r] } := by
    obtain ⟨⟨a, M0, st, rt, sock, wm, d, bd, br⟩, timer, log⟩ := s
    simp only at hA hS
    subst hA
    cases sock with
    | none => simp at hS
    | some w => simp [step, HandleConnectionError, HandleReconnction, emit]
  obtain ⟨s2, e2, -, hs2, hc2, ht2⟩ := run_notifications_without_autoreconnect env ns
    { s with api := { s.api with bReconnecting := false }
             log := s.log ++ [.OnConnectionError r] } hA hns
  refine ⟨h1, s2, by simp [run, h1, e2], ?_, ?_, ?_⟩
  · simpa [scheduled_append, scheduled] using hs2
  · simpa [connects] using hc2
  · simpa using ht2

/-- C13 amended, at the controller in `Connecting` after `Initialize` and `Connect()`. -/
theorem C13_error_without_autoreconnect_witness :
    ∃ s : Sys,
      run ⟨true, demoLib⟩ (fresh false 60) [.Initialize "abc123" true true, .Connect false]
        = .ok s ∧
      s.api.State = .Connecting ∧
      s.api.Socket.isSome = true ∧ s.api.bAutoReconnect = false ∧
      (∀ e ∈ [Event.OnMessage "x", Event.OnConnectionError "again" false,
          Event.OnClosed 1006 "" false false], isNotification e = true) ∧
      (step ⟨true, demoLib⟩ s (.OnConnectionError "refused" false)
        = .ok { s with api := { s.api with bReconnecting := false }
                       log := s.log ++ [.OnConnectionError "refused"] } ∧
      ∃ s2 : Sys,
        run ⟨true, demoLib⟩ s (.OnConnectionError "refused" false ::
          [Event.OnMessage "x", Event.OnConnectionError "again" false,
            Event.OnClosed 1006 "" false false]) = .ok s2 ∧
        scheduled s2.log = scheduled s.log ∧ connects s2.log = connects s.log ∧
        s2.timer = s.timer) :=
  ⟨_, rfl, rfl, rfl, rfl, by decide,
    C13_error_without_autoreconnect ⟨true, demoLib⟩ _ "refused" false
      [Event.OnMessage "x", Event.OnConnectionError "again" false,
        Event.OnClosed 1006 "" false false] rfl rfl (by decide)⟩

/-- C14, the code at the failing input. `Disconnect()` on a fresh controller sets
`bDisconnecting` although there is no socket to close. After `Initialize`, `Connect()` and
the connected notification a socket exists and no `Close` was ever issued, yet
`Disconnect()` changes nothing (no `Close`), and a closure the transport starts is
broadcast as `OnDisconnected(true)` and starts no reconnect. -/
theorem C14_disconnect_before_initialize_sticks :
    ∃ s s1 : Sys,
      run ⟨true, demoLib⟩ (fresh true 60)
        [.Disconnect, .Initialize "abc123" true true, .Connect false, .OnConnected] = .ok s ∧
      s.api.Socket.isSome = true ∧ s.api.State = .Connected ∧
      (∀ c r, Effect.SocketClose c r ∉ s.log) ∧
      s.api.bDisconnecting = true ∧
      Disconnect ⟨true, demoLib⟩ s = s ∧
      step ⟨true, demoLib⟩ s (.OnClosed 1006 "" false false) = .ok s1 ∧
      s1.log = s.log ++ [.OnConnectionState .NotConnected, .OnDisconnected true] ∧
      s1.api.State = .NotConnected ∧ s1.timer = none := by
  refine ⟨_, _, rfl, ?_, ?_, ?_, ?_, ?_, rfl, ?_, ?_, ?_⟩ <;>
    simp [Initialize, Connect, Disconnect, HandleConnection, HandleConnectionClosed,
      ChangeState, emit, fresh, IsConnected, GetURLAndProtocol]

/-- C15, the code at the failing input. On a controller without a socket (fresh, after a
failed `Initialize`, or after the other public calls) `Connect()` passes the
`!IsConnected()` test and calls `Socket->Connect()` through the null `Socket`. -/
theorem C15_connect_without_socket_faults (env : Env) (auto : Bool) (M : ℚ) (c : String)
    (tc : Bool) :
    step env (fresh auto M) (.Connect tc) = .error .nullSocket ∧
    run env (fresh auto M) [.Initialize c true false, .Connect tc] = .error .nullSocket ∧
    run env (fresh auto M) [.IsConnected tc, .GetConnectionState, .Disconnect, .Connect tc]
      = .error .nullSocket := by
  refine ⟨?_, ?_, ?_⟩ <;>
    simp [run, step, Initialize, Connect, Disconnect, ChangeState, emit, fresh, IsConnected,
      GetURLAndProtocol]

/-- C16. Connected resets the backoff. For every state, `HandleConnection` sets
`State = Connected`, `ReconnectDelay = 1` and `bReconnecting = false`, appends exactly the
broadcast of `Connected` followed by `OnConnected`, and leaves the socket, `bDisconnecting`,
the two configuration properties and the timer as they were; the connected notification
runs it whenever a socket exists. -/
theorem C16_connected_resets_backoff (env : Env) (s : Sys) :
    HandleConnection s
      = { s with
          api := { s.api with State := .Connected, ReconnectDelay := 1, bReconnecting := false }
          log := s.log ++ [.OnConnectionState .Connected, .OnConnected] } ∧
    (HandleConnection s).api.Socket = s.api.Socket ∧
    (HandleConnection s).api.bDisconnecting = s.api.bDisconnecting ∧
    (HandleConnection s).api.bAutoReconnect = s.api.bAutoReconnect ∧
    (HandleConnection s).api.MaximumReconnectDelay = s.api.MaximumReconnectDelay ∧
    (HandleConnection s).timer = s.timer ∧
    step env s .OnConnected = .ok (if s.api.Socket.isSome then HandleConnection s else s) := by
  refine ⟨?_, rfl, rfl, rfl, rfl, rfl, ?_⟩
  · simp [HandleConnection, ChangeState, emit]
  · simp only [step]
    split <;> rfl

/-- C18 as stated fails: with `bAutoReconnect` and a world, a connection error starts a
reconnect cycle, and a closed notification arriving during it writes `NotConnected` and
schedules nothing, since `bReconnecting` is set: `State = NotConnected` with the flag set and
the timer for 1 second still pending. -/
theorem C18_not_connected_with_reconnect_pending_counterexample :
    ∃ s : Sys,
      run ⟨true, demoLib⟩ (fresh true 60)
        [.Initialize "abc123" true true, .Connect false, .OnConnectionError "refused" false,
          .OnClosed 1006 "" false false] = .ok s ∧
      s.api.State = .NotConnected ∧ s.api.bReconnecting = true ∧ s.timer = some 1 := by
  refine ⟨_, rfl, ?_, ?_, ?_⟩ <;>
    simp [Initialize, Connect, HandleConnectionClosed, HandleConnectionError,
      HandleReconnction, ChangeState, SetTimer, emit, fresh, IsConnected, GetURLAndProtocol]

/-- C18, amended. With `bAutoReconnect` and a world, whenever a step ends in
`State = NotConnected` it has left `bReconnecting` as it was and the pending timer as it was
or cancelled; either the state was `NotConnected` before, or the step is a closed
notification on an existing socket; and such a closed notification ends in `NotConnected`
only if `bDisconnecting` or `bReconnecting` was set, leaving the timer as it was. -/
theorem C18_entering_not_connected (env : Env) (s s1 : Sys) (e : Event)
    (hW : env.World = true) (hA : s.api.bAutoReconnect = true)
    (h : step env s e = .ok s1) (hN : s1.api.State = .NotConnected) :
    s1.api.bReconnecting = s.api.bReconnecting ∧
    (s1.timer = s.timer ∨ s1.timer = none) ∧
    (s.api.State = .NotConnected ∨
      ((∃ c r w tc, e = .OnClosed c r w tc) ∧ s.api.Socket.isSome = true)) ∧
    ((∃ c r w tc, e = .OnClosed c r w tc) → s.api.Socket.isSome = true →
      (s.api.bDisconnecting = true ∨ s.api.bReconnecting = true) ∧ s1.timer = s.timer) := by
  obtain ⟨⟨a, M0, st, rt, sock, wm, d, bd, br⟩, timer, log⟩ := s
  obtain ⟨W, lib⟩ := env
  simp only at hW hA
  subst hW hA
  cases e <;>
    simp only [step, Initialize, Connect, Disconnect, HandleConnection, HandleConnectionClosed,
      HandleConnectionError, HandleReconnction, HandleMessage, ChangeState, SetTimer, ClearTimer,
      emit, IsConnected] at h <;>
    (repeat' split at h) <;>
    simp only [Except.ok.injEq, reduceCtorEq] at h <;>
    (try subst h) <;>
    (try simp_all)

/-- C18 amended, at the closure that follows `Disconnect()` on a connected controller. -/
theorem C18_entering_not_connected_witness :
    ∃ s s1 : Sys,
      run ⟨true, demoLib⟩ (fresh true 60)
        [.Initialize "abc123" true true, .Connect false, .OnConnected, .Disconnect] = .ok s ∧
      (⟨true, demoLib⟩ : Env).World = true ∧ s.api.bAutoReconnect = true ∧
      step ⟨true, demoLib⟩ s (.OnClosed 1000 "User requested disconnect" true false)
        = .ok s1 ∧
      s1.api.State = .NotConnected ∧
      (s1.api.bReconnecting = s.api.bReconnecting ∧
      (s1.timer = s.timer ∨ s1.timer = none) ∧
      (s.api.State = .NotConnected ∨
        ((∃ c r w tc, Event.OnClosed 1000 "User requested disconnect" true false
            = .OnClosed c r w tc) ∧ s.api.Socket.isSome = true)) ∧
      ((∃ c r w tc, Event.OnClosed 1000 "User requested disconnect" true false
          = .OnClosed c r w tc) → s.api.Socket.isSome = true →
        (s.api.bDisconnecting = true ∨ s.api.bReconnecting = true) ∧ s1.timer = s.timer)) :=
  ⟨_, _, rfl, rfl, rfl, rfl, rfl,
    C18_entering_not_connected ⟨true, demoLib⟩ _ _ (.OnClosed 1000 "User requested disconnect" true false)
      rfl rfl rfl rfl⟩

/-- C19 as stated fails: after a first connection error the state is `Reconnecting` with a
timer for 1 second pending; a second error clears `bReconnecting`, so `HandleReconnction`
schedules again, for 2 seconds, while the first timer is pending (the handle then holds the
new timer). -/
theorem C19_error_reschedules_pending_timer_counterexample :
    ∃ s s1 : Sys,
      run ⟨true, demoLib⟩ (fresh true 60)
        [.Initialize "abc123" true true, .Connect false,
          .OnConnectionError "refused" false] = .ok s ∧
      s.api.State = .Reconnecting ∧ s.timer = some 1 ∧
      step ⟨true, demoLib⟩ s (.OnConnectionError "reset" false) = .ok s1 ∧
      s1.log = s.log ++ [.OnConnectionError "reset", .OnConnectionState .Reconnecting,
        .SetTimer 2] ∧
      s1.timer = some 2 := by
  refine ⟨_, _, rfl, ?_, ?_, rfl, ?_, ?_⟩ <;>
    simp [Initialize, Connect, HandleConnectionError, HandleReconnction, ChangeState,
      SetTimer, emit, fresh, IsConnected, GetURLAndProtocol] <;> norm_num

/-- C19, amended. With `bAutoReconnect`, a world and a socket: a transport error always
schedules a timer for the current delay, which becomes the pending timer whatever was
pending; a closed notification schedules one exactly when neither `bDisconnecting` nor
`bReconnecting` is set, and otherwise leaves the pending timer as it is; the public calls,
the timer expiry, the connected and the message notifications schedule nothing. -/
theorem C19_when_timers_are_scheduled (env : Env) (s : Sys)
    (hW : env.World = true) (hA : s.api.bAutoReconnect = true)
    (hS : s.api.Socket.isSome = true) :
    (∀ (r : String) (tc : Bool), ∃ s1 : Sys,
      step env s (.OnConnectionError r tc) = .ok s1 ∧
      scheduled s1.log = scheduled s.log ++ [s.api.ReconnectDelay] ∧
      s1.timer = some s.api.ReconnectDelay) ∧
    (∀ (c : Int) (r : String) (w tc : Bool), ∃ s1 : Sys,
      step env s (.OnClosed c r w tc) = .ok s1 ∧
      scheduled s1.log = scheduled s.log ++
        (if s.api.bDisconnecting || s.api.bReconnecting then [] else [s.api.ReconnectDelay]) ∧
      s1.timer = (if s.api.bDisconnecting || s.api.bReconnecting then s.timer
        else some s.api.ReconnectDelay)) ∧
    (∀ (e : Event) (s1 : Sys), isNotification e = false → step env s e = .ok s1 →
      scheduled s1.log = scheduled s.log) ∧
    (∀ (e : Event) (s1 : Sys), step env s e = .ok s1 →
      e = .OnConnected ∨ (∃ m, e = .OnMessage m) →
      scheduled s1.log = scheduled s.log ∧ s1.timer = s.timer) := by
  obtain ⟨⟨a, M0, st, rt, sock, wm, d, bd, br⟩, timer, log⟩ := s
  obtain ⟨W, lib⟩ := env
  simp only at hW hA hS
  subst hW hA
  cases sock with
  | none => simp at hS
  | some sk =>
    refine ⟨?_, ?_, ?_, ?_⟩
    · intro r tc
      simp [step, HandleConnectionError, HandleReconnction, ChangeState, SetTimer, emit,
        scheduled_append, scheduled]
    · intro c r w tc
      cases bd <;> cases br <;>
        simp [step, HandleConnectionClosed, HandleReconnction, ChangeState, SetTimer, emit,
          scheduled_append, scheduled]
    · intro e s1 he h
      cases e <;> simp only [isNotification, reduceCtorEq] at he <;>
        simp only [step, Initialize, Connect, Disconnect, ChangeState, ClearTimer,
          emit, IsConnected] at h <;>
        (repeat' split at h) <;>
        simp only [Except.ok.injEq, reduceCtorEq] at h <;>
        (try subst h) <;>
        (try simp_all [scheduled_append, scheduled])
    · intro e s1 h he
      rcases he with rfl | ⟨m, rfl⟩ <;>
        simp only [step, HandleConnection, HandleMessage, ChangeState, emit] at h <;>
        (repeat' split at h) <;>
        simp only [Except.ok.injEq, reduceCtorEq] at h <;>
        (try subst h) <;>
        (try simp_all [scheduled_append, scheduled])

/-- C19 amended, at the controller just initialized. -/
theorem C19_when_timers_are_scheduled_witness :
    (⟨true, demoLib⟩ : Env).World = true ∧
    (Initialize "abc123" true true (fresh true 60)).2.api.bAutoReconnect = true ∧
    (Initialize "abc123" true true (fresh true 60)).2.api.Socket.isSome = true ∧
    ((∀ (r : String) (tc : Bool), ∃ s1 : Sys,
      step ⟨true, demoLib⟩ (Initialize "abc123" true true (fresh true 60)).2
        (.OnConnectionError r tc) = .ok s1 ∧
      scheduled s1.log = scheduled (Initialize "abc123" true true (fresh true 60)).2.log ++
        [(Initialize "abc123" true true (fresh true 60)).2.api.ReconnectDelay] ∧
      s1.timer = some (Initialize "abc123" true true (fresh true 60)).2.api.ReconnectDelay) ∧
    (∀ (c : Int) (r : String) (w tc : Bool), ∃ s1 : Sys,
      step ⟨true, demoLib⟩ (Initialize "abc123" true true (fresh true 60)).2
        (.OnClosed c r w tc) = .ok s1 ∧
      scheduled s1.log = scheduled (Initialize "abc123" true true (fresh true 60)).2.log ++
        (if (Initialize "abc123" true true (fresh true 60)).2.api.bDisconnecting ||
            (Initialize "abc123" true true (fresh true 60)).2.api.bReconnecting then []
          else [(Initialize "abc123" true true (fresh true 60)).2.api.ReconnectDelay]) ∧
      s1.timer = (if (Initialize "abc123" true true (fresh true 60)).2.api.bDisconnecting ||
            (Initialize "abc123" true true (fresh true 60)).2.api.bReconnecting
          then (Initialize "abc123" true true (fresh true 60)).2.timer
          else some (Initialize "abc123" true true (fresh true 60)).2.api.ReconnectDelay)) ∧
    (∀ (e : Event) (s1 : Sys), isNotification e = false →
      step ⟨true, demoLib⟩ (Initialize "abc123" true true (fresh true 60)).2 e = .ok s1 →
      scheduled s1.log = scheduled (Initialize "abc123" true true (fresh true 60)).2.log) ∧
    (∀ (e : Event) (s1 : Sys),
      step ⟨true, demoLib⟩ (Initialize "abc123" true true (fresh true 60)).2 e = .ok s1 →
      e = .OnConnected ∨ (∃ m, e = .OnMessage m) →
      scheduled s1.log = scheduled (Initialize "abc123" true true (fresh true 60)).2.log ∧
        s1.timer = (Initialize "abc123" true true (fresh true 60)).2.timer)) :=
  ⟨rfl, rfl, rfl,
    C19_when_timers_are_scheduled ⟨true, demoLib⟩ (Initialize "abc123" true true (fresh true 60)).2 rfl rfl rfl⟩

/-- C20. Fallback without a world. For every initialized controller with
`bAutoReconnect`, no world, and neither `bReconnecting` nor `bDisconnecting` set, a closed
notification, and likewise a transport error, with the socket not connected sets
`bReconnecting`, broadcasts `Connecting` and issues exactly one `Socket->Connect()` in the
same step: `State = Connecting`, no timer is scheduled, `Reconnecting` is not broadcast and
`ReconnectDelay` is unchanged. -/
theorem C20_fallback_without_world (env : Env) (s : Sys)
    (hW : env.World = false) (hA : s.api.bAutoReconnect = true)
    (hS : s.api.Socket.isSome = true) (hR : s.api.bReconnecting = false)
    (hD : s.api.bDisconnecting = false) :
    (∀ (c : Int) (r : String) (w : Bool),
      step env s (.OnClosed c r w false)
        = .ok { s with
            api := { s.api with State := .Connecting, bReconnecting := true }
            log := s.log ++ [.OnConnectionState .NotConnected, .OnDisconnected false,
              .OnConnectionState .Connecting, .SocketConnect] }) ∧
    (∀ r : String,
      step env s (.OnConnectionError r false)
        = .ok { s with
            api := { s.api with State := .Connecting, bReconnecting := true }
            log := s.log ++ [.OnConnectionError r, .OnConnectionState .Connecting,
              .SocketConnect] }) := by
  obtain ⟨⟨a, M0, st, rt, sock, wm, d, bd, br⟩, timer, log⟩ := s
  obtain ⟨W, lib⟩ := env
  simp only at hW hA hS hR hD
  subst hW hA hR hD
  cases sock with
  | none => simp at hS
  | some sk =>
    constructor <;> intros <;>
      simp [step, HandleConnectionClosed, HandleConnectionError, HandleReconnction, Connect,
        IsConnected, ChangeState, emit]

/-- C20 at the controller just initialized. -/
theorem C20_fallback_without_world_witness :
    (⟨false, demoLib⟩ : Env).World = false ∧
    (Initialize "abc123" true true (fresh true 60)).2.api.bAutoReconnect = true ∧
    (Initialize "abc123" true true (fresh true 60)).2.api.Socket.isSome = true ∧
    (Initialize "abc123" true true (fresh true 60)).2.api.bReconnecting = false ∧
    (Initialize "abc123" true true (fresh true 60)).2.api.bDisconnecting = false ∧
    ((∀ (c : Int) (r : String) (w : Bool),
      step ⟨false, demoLib⟩ (Initialize "abc123" true true (fresh true 60)).2
          (.OnClosed c r w false)
        = .ok { (Initialize "abc123" true true (fresh true 60)).2 with
            api := { (Initialize "abc123" true true (fresh true 60)).2.api with
              State := .Connecting, bReconnecting := true }
            log := (Initialize "abc123" true true (fresh true 60)).2.log ++
              [.OnConnectionState .NotConnected, .OnDisconnected false,
                .OnConnectionState .Connecting, .SocketConnect] }) ∧
    (∀ r : String,
      step ⟨false, demoLib⟩ (Initialize "abc123" true true (fresh true 60)).2
          (.OnConnectionError r false)
        = .ok { (Initialize "abc123" true true (fresh true 60)).2 with
            api := { (Initialize "abc123" true true (fresh true 60)).2.api with
              State := .Connecting, bReconnecting := true }
            log := (Initialize "abc123" true true (fresh true 60)).2.log ++
              [.OnConnectionError r, .OnConnectionState .Connecting, .SocketConnect] })) :=
  ⟨rfl, rfl, rfl, rfl, rfl,
    C20_fallback_without_world ⟨false, demoLib⟩ (Initialize "abc123" true true (fresh true 60)).2 rfl rfl rfl rfl rfl⟩

end TwitchHEAT
